import Mathlib

/-!
Verification development for the Tiered Risk Escalation Engine of the
fuels-logistics backend (`backend/app`).  The Python sources are shallowly
embedded: Python floats and datetimes are modelled as rationals (timestamps
are rational numbers of seconds unless noted otherwise), SQLAlchemy rows
become Lean structures, database tables become lists, and ambient values
(`now_local()`, the external LLM call, the SendGrid send) become explicit
parameters.
-/

namespace Fuels

/-- `LoadStatus` enum of `models.py`. -/
inductive LoadStatus where
  | scheduled
  | in_transit
  | delivered
  | delayed
  | cancelled
deriving DecidableEq, Repr

/-- `AgentExecutionMode` enum of `models.py`. -/
inductive AgentExecutionMode where
  | draft_only
  | auto_email
  | full_auto
deriving DecidableEq, Repr

/-- `EscalationPriority` enum of `models.py`. -/
inductive EscalationPriority where
  | low
  | medium
  | high
  | critical
deriving DecidableEq, Repr

/-- `EscalationPriority(value)` constructor call: returns the member whose
value matches, and raises `ValueError` (here: `none`) otherwise. -/
def EscalationPriority.ofValue : String → Option EscalationPriority
  | "low" => some .low
  | "medium" => some .medium
  | "high" => some .high
  | "critical" => some .critical
  | _ => none

/-- `EscalationStatus` enum of `models.py` (`opened` models Python's "open",
which is a Lean keyword). -/
inductive EscalationStatus where
  | opened
  | in_progress
  | resolved
deriving DecidableEq, Repr

/-- `IssueType` enum of `models.py`. -/
inductive IssueType where
  | runout_risk
  | terminal_out_of_stock
  | site_closed
  | driver_issue
  | delayed_shipment
  | no_carrier_response
  | other
deriving DecidableEq, Repr

/-- `ActivityType` enum of `models.py` (members used by the engine). -/
inductive ActivityType where
  | email_sent
  | dashboard_updated
  | escalation_created
  | inventory_checked
  | load_status_updated
  | eta_updated
deriving DecidableEq, Repr

/-- `EmailDeliveryStatus` enum of `models.py` (members used here). -/
inductive EmailDeliveryStatus where
  | pending
  | sent
  | failed
deriving DecidableEq, Repr

/-- `Site` row (`models.py`), restricted to the columns the engine reads.
`hours_to_runout` is a nullable float column. -/
structure Site where
  id : ℕ
  consignee_code : String
  consignee_name : String := ""
  hours_to_runout : Option ℚ := none
  runout_threshold_hours : ℚ := 48
  assigned_agent_id : Option ℕ := none
  last_inventory_update_at : Option ℚ := none
  inventory_staleness_threshold_hours : ℚ := 2
deriving DecidableEq, Repr

/-- `Load` row (`models.py`), restricted to the columns the engine reads. -/
structure Load where
  id : ℕ
  po_number : String
  carrier_id : ℕ
  destination_site_id : ℕ
  status : LoadStatus := .scheduled
  current_eta : Option ℚ := none
  last_eta_update : Option ℚ := none
  last_email_sent : Option ℚ := none
  last_eta_update_at : Option ℚ := none
  eta_staleness_threshold_hours : ℚ := 4
deriving DecidableEq, Repr

/-- `Carrier` row (`models.py`).  `dispatcher_email` is nullable; Python
truthiness also treats the empty string as missing. -/
structure Carrier where
  id : ℕ
  carrier_name : String
  dispatcher_email : Option String := none
deriving DecidableEq, Repr

/-- Entry of `CarrierStats.recent_deliveries` as built by
`knowledge_graph.on_load_delivered` (the isoformat date string is modelled
by the timestamp itself). -/
structure DeliveryRecord where
  on_time : Bool
  delay_hours : ℚ
  date : ℚ
  load_id : ℕ
  po_number : String
deriving DecidableEq, Repr

/-- Entry of `SiteStats.recent_events` as built by the knowledge-graph
handlers. -/
structure SiteEvent where
  etype : String
  date : ℚ
  details : String
  carrier : Option ℕ := none
  priority : Option String := none
deriving DecidableEq, Repr

/-- Modelled from the spec: the carrier reliability record (§3).  The class
declaration itself is not under `src/`; the fields are exactly those read and
written by `knowledge_graph.py` and `rules_engine.py`, with fresh rows
starting at zero counts and the neutral 0.5 prior. -/
structure CarrierStats where
  carrier_id : ℕ
  total_deliveries : ℕ := 0
  on_time_deliveries : ℕ := 0
  late_deliveries : ℕ := 0
  avg_delay_hours : ℚ := 0
  worst_delay_hours : ℚ := 0
  total_eta_requests : ℕ := 0
  eta_responses_received : ℕ := 0
  avg_response_time_hours : Option ℚ := none
  reliability_score : ℚ := 1/2
  flagged_unreliable : Bool := false
  recent_deliveries : List DeliveryRecord := []
deriving DecidableEq, Repr

/-- Modelled from the spec: the site risk record (§3).  The class declaration
itself is not under `src/`; the fields are those used by
`knowledge_graph.py`. -/
structure SiteStats where
  site_id : ℕ
  total_escalations : ℕ := 0
  false_alarm_count : ℕ := 0
  false_alarm_rate : ℚ := 0
  risk_score : ℚ := 0
  total_deliveries_received : ℕ := 0
  recent_events : List SiteEvent := []
deriving DecidableEq, Repr

/-- `AIAgent` row (`models.py`), restricted to the columns the engine reads. -/
structure AIAgent where
  id : ℕ
  execution_mode : AgentExecutionMode := .draft_only
deriving DecidableEq, Repr

/-- `Escalation` row (`models.py`), all columns of the declared model. -/
structure Escalation where
  id : ℕ := 0
  created_by_agent_id : Option ℕ := none
  load_id : Option ℕ := none
  site_id : Option ℕ := none
  priority : EscalationPriority := .medium
  issue_type : IssueType
  description : String
  status : EscalationStatus := .opened
  assigned_to : Option String := none
  resolution_notes : Option String := none
deriving DecidableEq, Repr

/-- `Activity` row (`models.py`), restricted to the columns the engine
writes.  The JSON `details` blob is represented by the decision-relevant
`rule` entry it carries. -/
structure Activity where
  agent_id : Option ℕ
  activity_type : ActivityType
  load_id : Option ℕ := none
  rule : Option String := none
  decision_code : Option String := none
deriving DecidableEq, Repr

/-- `EmailLog` row (`models.py`), restricted to the columns
`email_service.send_eta_request` sets (the rendered body text is
display-only and omitted). -/
structure EmailLog where
  recipient : String
  subject : String
  template_id : String := "eta_request"
  status : EmailDeliveryStatus := .pending
  load_id : Option ℕ := none
  carrier_id : Option ℕ := none
  sent_by_agent_id : Option ℕ := none
deriving DecidableEq, Repr

/-! ### Knowledge graph scoring (`services/knowledge_graph.py`) -/

/-- Python's `round` to an integer: round half to even. -/
def roundHalfEven (q : ℚ) : ℤ :=
  if q - ⌊q⌋ < 1/2 then ⌊q⌋
  else if 1/2 < q - ⌊q⌋ then ⌊q⌋ + 1
  else if 2 ∣ ⌊q⌋ then ⌊q⌋ else ⌊q⌋ + 1

/-- Python's `round(q, 3)`. -/
def round3 (q : ℚ) : ℚ := (roundHalfEven (q * 1000) : ℚ) / 1000

/-- `_compute_reliability_score` (knowledge_graph.py lines 49-63). -/
def _compute_reliability_score (stats : CarrierStats) : ℚ :=
  if stats.total_deliveries = 0 then 1/2
  else
    let on_time_rate : ℚ := (stats.on_time_deliveries : ℚ) / stats.total_deliveries
    let response_rate : ℚ :=
      if 0 < stats.total_eta_requests then
        (stats.eta_responses_received : ℚ) / stats.total_eta_requests
      else 1
    let score := on_time_rate * (7/10) + response_rate * (3/10)
    round3 (min 1 (max 0 score))

/-- `cs.flagged_unreliable = cs.reliability_score < 0.4`
(knowledge_graph.py lines 111 and 385). -/
def flagUnreliable (score : ℚ) : Bool := score < 2/5

/-- Scenario B carrier: 10 deliveries (6 on-time, 4 late), 5 ETA requests,
4 answered. -/
def scenarioBCarrier : CarrierStats :=
  { carrier_id := 1, total_deliveries := 10, on_time_deliveries := 6,
    late_deliveries := 4, total_eta_requests := 5, eta_responses_received := 4 }

theorem roundHalfEven_nonneg {q : ℚ} (h : 0 ≤ q) : 0 ≤ roundHalfEven q := by
  unfold roundHalfEven
  have hf : (0:ℤ) ≤ ⌊q⌋ := Int.le_floor.mpr (by exact_mod_cast h)
  split
  · exact hf
  · split
    · omega
    · split
      · exact hf
      · omega

theorem roundHalfEven_le {q : ℚ} {n : ℤ} (h : q ≤ n) : roundHalfEven q ≤ n := by
  unfold roundHalfEven
  have hf : ⌊q⌋ ≤ n := by
    calc ⌊q⌋ ≤ ⌊(n:ℚ)⌋ := Int.floor_le_floor h
    _ = n := Int.floor_intCast n
  split
  · exact hf
  · rename_i h1
    push_neg at h1
    split
    · rename_i h2
      have hlt : (⌊q⌋ : ℚ) < n := by
        have := Int.floor_le q
        linarith
      have : ⌊q⌋ < n := by exact_mod_cast hlt
      omega
    · rename_i h2
      push_neg at h2
      have heq : q - ⌊q⌋ = 1/2 := le_antisymm h2 h1
      have hlt : (⌊q⌋ : ℚ) < n := by linarith
      have : ⌊q⌋ < n := by exact_mod_cast hlt
      split
      · omega
      · omega

theorem round3_nonneg {q : ℚ} (h : 0 ≤ q) : 0 ≤ round3 q := by
  unfold round3
  have : (0:ℤ) ≤ roundHalfEven (q * 1000) := roundHalfEven_nonneg (by positivity)
  positivity

theorem round3_le_one {q : ℚ} (h : q ≤ 1) : round3 q ≤ 1 := by
  unfold round3
  have h1 : q * 1000 ≤ ((1000 : ℤ) : ℚ) := by push_cast; linarith
  have h2 : roundHalfEven (q * 1000) ≤ 1000 := roundHalfEven_le h1
  have h3 : ((roundHalfEven (q * 1000)) : ℚ) ≤ 1000 := by exact_mod_cast h2
  linarith

theorem roundHalfEven_intCast (n : ℤ) : roundHalfEven (n : ℚ) = n := by
  unfold roundHalfEven
  rw [Int.floor_intCast]
  norm_num

theorem round3_of_intMul {q : ℚ} {n : ℤ} (h : q * 1000 = (n : ℚ)) :
    round3 q = (n : ℚ) / 1000 := by
  unfold round3
  rw [h, roundHalfEven_intCast]

/-- C3: `_compute_reliability_score` returns 0.5 when `total_deliveries = 0`;
otherwise it is the clamp to [0,1] of
0.7·on_time_rate + 0.3·eta_response_rate (the response rate taken as 1 when
no ETA request was recorded), Python-rounded to three decimals; the result
lies in [0,1] for all input counts; and the Scenario-B carrier (10
deliveries, 6 on-time; 5 ETA requests, 4 answered) scores 0.66 and is not
flagged unreliable (the flag fires iff the score is below 0.4). -/
theorem C3_reliability_score (stats : CarrierStats) :
    (stats.total_deliveries = 0 → _compute_reliability_score stats = 1/2) ∧
    (stats.total_deliveries ≠ 0 →
      _compute_reliability_score stats =
        round3 (min 1 (max 0
          ((stats.on_time_deliveries : ℚ) / stats.total_deliveries * (7/10) +
           (if 0 < stats.total_eta_requests then
              (stats.eta_responses_received : ℚ) / stats.total_eta_requests
            else 1) * (3/10))))) ∧
    (0 ≤ _compute_reliability_score stats ∧ _compute_reliability_score stats ≤ 1) ∧
    (_compute_reliability_score scenarioBCarrier = 66/100 ∧
     flagUnreliable (_compute_reliability_score scenarioBCarrier) = false) := by
  have hscenario : _compute_reliability_score scenarioBCarrier = 66/100 := by
    unfold _compute_reliability_score scenarioBCarrier
    norm_num [min_def, max_def]
    rw [round3_of_intMul (n := 660) (by norm_num)]
    norm_num
  refine ⟨fun h => by simp [_compute_reliability_score, h], fun h => by
    simp only [_compute_reliability_score, h, if_false], ?_, hscenario, ?_⟩
  · unfold _compute_reliability_score
    split
    · norm_num
    · constructor
      · exact round3_nonneg (le_min (by norm_num) (le_max_left 0 _))
      · exact round3_le_one (min_le_left 1 _)
  · rw [hscenario]
    simp only [flagUnreliable]
    norm_num

/-- Witness for C3 at concrete inputs (a carrier with no deliveries, and the
Scenario-B carrier). -/
theorem C3_reliability_score_witness :
    _compute_reliability_score { carrier_id := 2 } = 1/2 ∧
    _compute_reliability_score scenarioBCarrier =
      round3 (min 1 (max 0
        ((scenarioBCarrier.on_time_deliveries : ℚ) / scenarioBCarrier.total_deliveries * (7/10) +
         (if 0 < scenarioBCarrier.total_eta_requests then
            (scenarioBCarrier.eta_responses_received : ℚ) / scenarioBCarrier.total_eta_requests
          else 1) * (3/10)))) :=
  ⟨(C3_reliability_score { carrier_id := 2 }).1 rfl,
   (C3_reliability_score scenarioBCarrier).2.1 (by norm_num [scenarioBCarrier])⟩

/-! ### Tier 1 rules engine (`agents/rules_engine.py`) -/

/-- `RuleAction` dataclass (rules_engine.py lines 30-39).  The `details`
dict is represented by its decision-relevant entries (`rule`,
`hours_to_runout`, `hours_since_update`); an empty `rule` models a `details`
dict without a "rule" key. -/
structure RuleAction where
  action_type : String
  priority : String := "medium"
  site_id : Option ℕ := none
  load_id : Option ℕ := none
  carrier_id : Option ℕ := none
  description : String := ""
  rule : String := ""
  hours_to_runout : Option ℚ := none
  hours_since_update : Option ℚ := none
deriving DecidableEq, Repr

/-- An entry of `tier2_context` (rules_engine.py lines 167-178 and 210-218),
with the `details` dict flattened into optional fields. -/
structure Tier2Flag where
  reason : String
  site_id : Option ℕ := none
  load_id : Option ℕ := none
  carrier_id : Option ℕ := none
  carrier_name : String := ""
  late_rate : Option ℚ := none
  hours_to_runout : Option ℚ := none
  site_code : String := ""
  at_risk_sites : List String := []
  at_risk_count : ℕ := 0
deriving DecidableEq, Repr

/-- `RuleResult` dataclass (rules_engine.py lines 42-49). -/
structure RuleResult where
  actions : List RuleAction := []
  tier2_flags : List Tier2Flag := []
  sites_checked : ℕ := 0
  loads_checked : ℕ := 0
  summary : String := ""
deriving DecidableEq, Repr

/-- The tables read by `run_rules_check`. -/
structure RulesDB where
  agents : List AIAgent := []
  sites : List Site := []
  loads : List Load := []
  carriers : List Carrier := []
  carrier_stats : List CarrierStats := []
deriving DecidableEq, Repr

def findAgent (db : RulesDB) (agent_id : ℕ) : Option AIAgent :=
  db.agents.find? (fun a => a.id == agent_id)

def findCarrier (db : RulesDB) (cid : ℕ) : Option Carrier :=
  db.carriers.find? (fun c => c.id == cid)

def carrierStatsFor (db : RulesDB) (cid : ℕ) : Option CarrierStats :=
  db.carrier_stats.find? (fun cs => cs.carrier_id == cid)

/-- The sites assigned to the agent (rules_engine.py line 66). -/
def assignedSites (db : RulesDB) (agent_id : ℕ) : List Site :=
  db.sites.filter (fun s => s.assigned_agent_id == some agent_id)

/-- Statuses counted as active (rules_engine.py line 76). -/
def activeStatuses : List LoadStatus := [.scheduled, .in_transit, .delayed]

/-- The `active_loads` query (rules_engine.py lines 74-77). -/
def activeLoads (db : RulesDB) (site_ids : List ℕ) : List Load :=
  db.loads.filter (fun l =>
    site_ids.contains l.destination_site_id && activeStatuses.contains l.status)

/-- `loads_by_site` for one site (rules_engine.py lines 81-83: the dict's
per-site list preserves query order, i.e. filter order). -/
def loadsBySite (active : List Load) (site_id : ℕ) : List Load :=
  active.filter (fun l => l.destination_site_id == site_id)

/-- `site.hours_to_runout or 999`: Python `or` maps both `None` and the
falsy float `0.0` to `999` (rules_engine.py lines 104 and 203). -/
def hoursOr999 : Option ℚ → ℚ
  | none => 999
  | some h => if h = 0 then 999 else h

/-- `(now - t).total_seconds() / 3600`. -/
def hoursSince (now t : ℚ) : ℚ := (now - t) / 3600

/-- `x is None or x > bound` on an optional float. -/
def isNoneOrGt (x : Option ℚ) (bound : ℚ) : Bool :=
  match x with
  | none => true
  | some h => decide (bound < h)

/-- Python truthiness of an optional float (`None` and `0.0` are falsy). -/
def qTruthy : Option ℚ → Bool
  | none => false
  | some h => decide (h ≠ 0)

/-- Display stand-in for Python's f-string float formatting (`.1f` etc.);
the exact decimal rendering is irrelevant to every claim. -/
def fmtQ (q : ℚ) : String := toString q.num ++ "/" ++ toString q.den

/-- Rule 1 action (rules_engine.py lines 107-115). -/
def rule1Action (site : Site) (hours : ℚ) : RuleAction :=
  { action_type := "create_escalation", priority := "critical",
    site_id := some site.id,
    description := site.consignee_code ++ " has " ++ fmtQ hours ++
      "h to runout with NO active loads. Immediate attention needed.",
    rule := "critical_no_loads", hours_to_runout := some hours }

/-- Rule 2 action (rules_engine.py lines 118-126). -/
def rule2Action (site : Site) (hours : ℚ) : RuleAction :=
  { action_type := "create_escalation", priority := "high",
    site_id := some site.id,
    description := site.consignee_code ++ " has " ++ fmtQ hours ++
      "h to runout with no active loads.",
    rule := "high_risk_no_loads", hours_to_runout := some hours }

/-- Rule 3a actions for one load (rules_engine.py lines 135-143). -/
def rule3aActions (site : Site) (hours : ℚ) (load : Load) : List RuleAction :=
  if load.status = .delayed then
    [{ action_type := "create_escalation",
       priority := if hours < 24 then "high" else "medium",
       site_id := some site.id, load_id := some load.id,
       description := "Load " ++ load.po_number ++ " to " ++ site.consignee_code ++
         " is DELAYED. Site has " ++ fmtQ hours ++ "h to runout.",
       rule := "delayed_load_at_risk_site", hours_to_runout := some hours }]
  else []

/-- Rule 3b actions for one load (rules_engine.py lines 145-163). -/
def rule3bActions (now : ℚ) (site : Site) (load : Load) : List RuleAction :=
  let hours_since_update := load.last_eta_update.map (hoursSince now)
  let hours_since_email := load.last_email_sent.map (hoursSince now)
  if isNoneOrGt hours_since_update 4 && isNoneOrGt hours_since_email 2 then
    [{ action_type := "send_eta_email", site_id := some site.id,
       load_id := some load.id, carrier_id := some load.carrier_id,
       description :=
         if qTruthy hours_since_update then
           "Requesting ETA update for " ++ load.po_number ++ " (last update: " ++
             fmtQ (hours_since_update.getD 0) ++ "h ago)"
         else "Requesting ETA for " ++ load.po_number ++ " (no ETA on file)",
       rule := "stale_eta", hours_since_update := hours_since_update }]
  else []

/-- Rule 4 actions for one load (rules_engine.py lines 183-197). -/
def rule4Actions (now : ℚ) (site : Site) (hours : ℚ) (load : Load) : List RuleAction :=
  if load.status = .delayed then
    let hours_since_email := load.last_email_sent.map (hoursSince now)
    if isNoneOrGt hours_since_email 4 then
      [{ action_type := "send_eta_email", site_id := some site.id,
         load_id := some load.id, carrier_id := some load.carrier_id,
         description := "Load " ++ load.po_number ++ " is delayed to " ++
           site.consignee_code ++ " (site OK: " ++ fmtQ hours ++ "h inventory).",
         rule := "delayed_load_site_ok" }]
    else []
  else []

/-- Rules 1-4: the actions appended for one site by the per-site loop body
of `run_rules_check` (rules_engine.py lines 101-197), in order.  Rules 1 and
2 `continue` past the rest; rules 3 and 4 have mutually exclusive guards. -/
def siteActions (now : ℚ) (active : List Load) (site : Site) : List RuleAction :=
  let site_loads := loadsBySite active site.id
  let hours := hoursOr999 site.hours_to_runout
  if hours < 12 ∧ site_loads.isEmpty then [rule1Action site hours]
  else if hours < 24 ∧ site_loads.isEmpty then [rule2Action site hours]
  else
    (if hours < site.runout_threshold_hours ∧ ¬ site_loads.isEmpty = true then
      site_loads.flatMap (fun load => rule3aActions site hours load ++ rule3bActions now site load)
    else []) ++
    (if site.runout_threshold_hours ≤ hours then
      site_loads.flatMap (fun load => rule4Actions now site hours load)
    else [])

/-- Rule 3c: the `tier2_context` entries appended for one site
(rules_engine.py lines 165-178); rules 1/2 `continue` past this too. -/
def siteFlags (db : RulesDB) (active : List Load) (site : Site) : List Tier2Flag :=
  let site_loads := loadsBySite active site.id
  let hours := hoursOr999 site.hours_to_runout
  if hours < 12 ∧ site_loads.isEmpty then []
  else if hours < 24 ∧ site_loads.isEmpty then []
  else if hours < site.runout_threshold_hours ∧ ¬ site_loads.isEmpty = true then
    site_loads.flatMap (fun load =>
      match carrierStatsFor db load.carrier_id with
      | some cs =>
        if cs.flagged_unreliable ∧ hours < 24 then
          [{ reason := "unreliable_carrier_critical_site",
             site_id := some site.id, load_id := some load.id,
             carrier_id := some load.carrier_id,
             carrier_name := match findCarrier db load.carrier_id with
               | some c => c.carrier_name
               | none => "Unknown",
             late_rate := some cs.reliability_score,
             hours_to_runout := some hours,
             site_code := site.consignee_code }]
        else []
      | none => [])
  else []

/-- `dict.setdefault(key, []).append(code)` on an insertion-ordered dict
represented as an association list. -/
def setdefaultAppend (m : List (ℕ × List String)) (key : ℕ) (code : String) :
    List (ℕ × List String) :=
  match m with
  | [] => [(key, [code])]
  | (k, v) :: rest =>
    if k = key then (k, v ++ [code]) :: rest
    else (k, v) :: setdefaultAppend rest key code

/-- The `(load.carrier_id, site.consignee_code)` contributions of one site
to the rule-5 `carrier_risk_sites` dict (rules_engine.py lines 201-205). -/
def riskPairsOfSite (active : List Load) (site : Site) : List (ℕ × String) :=
  if hoursOr999 site.hours_to_runout < site.runout_threshold_hours then
    (loadsBySite active site.id).map (fun l => (l.carrier_id, site.consignee_code))
  else []

/-- All rule-5 contributions in iteration order. -/
def riskPairs (active : List Load) (sites : List Site) : List (ℕ × String) :=
  sites.flatMap (riskPairsOfSite active)

/-- The `carrier_risk_sites` dict (rules_engine.py lines 201-205). -/
def carrierRiskSites (pairs : List (ℕ × String)) : List (ℕ × List String) :=
  pairs.foldl (fun m p => setdefaultAppend m p.1 p.2) []

/-- Rule 5 flags (rules_engine.py lines 207-218). -/
def rule5Flags (db : RulesDB) (m : List (ℕ × List String)) : List Tier2Flag :=
  m.flatMap (fun kv =>
    if 1 < kv.2.length then
      [{ reason := "multi_site_carrier_risk", carrier_id := some kv.1,
         carrier_name := match findCarrier db kv.1 with
           | some c => c.carrier_name
           | none => "Unknown",
         at_risk_sites := kv.2, at_risk_count := kv.2.length }]
    else [])

/-- The `result.summary` string (rules_engine.py lines 223-229). -/
def mkSummary (nsites nloads : ℕ) (actions : List RuleAction)
    (flags : List Tier2Flag) : String :=
  let escalations := (actions.filter (fun a => a.action_type == "create_escalation")).length
  let emails := (actions.filter (fun a => a.action_type == "send_eta_email")).length
  "Checked " ++ toString nsites ++ " sites, " ++ toString nloads ++
    " loads. Actions: " ++ toString escalations ++ " escalations, " ++
    toString emails ++ " ETA emails. Tier 2 flags: " ++ toString flags.length ++ "."

/-- `run_rules_check` (rules_engine.py lines 52-235): the full Tier 1 pass
for one agent, a pure read of the database. -/
def run_rules_check (db : RulesDB) (now : ℚ) (agent_id : ℕ) : RuleResult :=
  match findAgent db agent_id with
  | none => { summary := "Agent not found" }
  | some _ =>
    let sites := assignedSites db agent_id
    if sites.isEmpty then { summary := "No sites assigned" }
    else
      let site_ids := sites.map Site.id
      let active := activeLoads db site_ids
      let actions := sites.flatMap (siteActions now active)
      let flags := sites.flatMap (siteFlags db active) ++
        rule5Flags db (carrierRiskSites (riskPairs active sites))
      { actions := actions,
        tier2_flags := flags,
        sites_checked := sites.length,
        loads_checked := active.length,
        summary := mkSummary sites.length active.length actions flags }

/-- Actions of a Tier 1 result that reference a given site id. -/
def actionsForSite (r : RuleResult) (sid : ℕ) : List RuleAction :=
  r.actions.filter (fun a => a.site_id == some sid)

/-- Flags of a Tier 1 result that reference a given site (by id, or by its
consignee code in a rule-5 flag's at-risk list). -/
def flagsForSite (r : RuleResult) (site : Site) : List Tier2Flag :=
  r.tier2_flags.filter (fun f =>
    f.site_id == some site.id || f.at_risk_sites.contains site.consignee_code)

/-! ### Structural lemmas about the Tier 1 pass -/

theorem mem_siteActions_site_id (now : ℚ) (active : List Load) (site : Site) :
    ∀ a ∈ siteActions now active site, a.site_id = some site.id := by
  intro a ha
  simp only [siteActions] at ha
  split at ha
  · simp only [List.mem_singleton] at ha
    subst ha; rfl
  · split at ha
    · simp only [List.mem_singleton] at ha
      subst ha; rfl
    · rcases List.mem_append.mp ha with h | h
      · split at h
        · obtain ⟨l, _, hal⟩ := List.mem_flatMap.mp h
          rcases List.mem_append.mp hal with h3 | h3
          · simp only [rule3aActions] at h3
            split at h3
            · simp only [List.mem_singleton] at h3; subst h3; rfl
            · simp at h3
          · simp only [rule3bActions] at h3
            split at h3
            · simp only [List.mem_singleton] at h3; subst h3; rfl
            · simp at h3
        · simp at h
      · split at h
        · obtain ⟨l, _, hal⟩ := List.mem_flatMap.mp h
          simp only [rule4Actions] at hal
          split at hal
          · split at hal
            · simp only [List.mem_singleton] at hal; subst hal; rfl
            · simp at hal
          · simp at hal
        · simp at h

theorem mem_siteFlags_fields (db : RulesDB) (active : List Load) (site : Site) :
    ∀ f ∈ siteFlags db active site,
      f.reason = "unreliable_carrier_critical_site" ∧
      f.site_id = some site.id ∧ f.at_risk_sites = [] := by
  intro f hf
  simp only [siteFlags] at hf
  split at hf
  · simp at hf
  · split at hf
    · simp at hf
    · split at hf
      · obtain ⟨l, _, hfl⟩ := List.mem_flatMap.mp hf
        split at hfl
        · split at hfl
          · simp only [List.mem_singleton] at hfl
            subst hfl; exact ⟨rfl, rfl, rfl⟩
          · simp at hfl
        · simp at hfl
      · simp at hf

theorem mem_rule5Flags_fields (db : RulesDB) (m : List (ℕ × List String)) :
    ∀ f ∈ rule5Flags db m,
      f.reason = "multi_site_carrier_risk" ∧ f.site_id = none ∧
      ∃ kv ∈ m, f.carrier_id = some kv.1 ∧ f.at_risk_sites = kv.2 ∧
        1 < kv.2.length := by
  intro f hf
  simp only [rule5Flags] at hf
  obtain ⟨kv, hkv, hfk⟩ := List.mem_flatMap.mp hf
  split at hfk
  · simp only [List.mem_singleton] at hfk
    subst hfk
    exact ⟨rfl, rfl, kv, hkv, rfl, rfl, by assumption⟩
  · simp at hfk

theorem rule5Flags_mem_iff (db : RulesDB) (m : List (ℕ × List String)) (c : ℕ) :
    (∃ f ∈ rule5Flags db m, f.carrier_id = some c) ↔
      ∃ kv ∈ m, kv.1 = c ∧ 1 < kv.2.length := by
  constructor
  · rintro ⟨f, hf, hc⟩
    obtain ⟨-, -, kv, hkv, hck, -, hlen⟩ := mem_rule5Flags_fields db m f hf
    refine ⟨kv, hkv, ?_, hlen⟩
    rw [hck] at hc
    exact Option.some.inj hc
  · rintro ⟨kv, hkv, rfl, hlen⟩
    refine ⟨{ reason := "multi_site_carrier_risk", carrier_id := some kv.1,
              carrier_name := match findCarrier db kv.1 with
                | some c => c.carrier_name
                | none => "Unknown",
              at_risk_sites := kv.2, at_risk_count := kv.2.length }, ?_, rfl⟩
    simp only [rule5Flags, List.mem_flatMap]
    exact ⟨kv, hkv, by simp [if_pos hlen]⟩

theorem filter_flatMap' {α β : Type} (l : List α) (f : α → List β) (p : β → Bool) :
    (l.flatMap f).filter p = l.flatMap (fun x => (f x).filter p) := by
  induction l with
  | nil => rfl
  | cons x xs ih => simp [List.flatMap_cons, List.filter_append, ih]

theorem flatMap_eq_single {α β : Type} [DecidableEq α] (l : List α) (f : α → List β)
    (a : α) (r : List β) (hcount : l.count a = 1)
    (h : ∀ x ∈ l, f x = if x = a then r else []) :
    l.flatMap f = r := by
  induction l with
  | nil => simp at hcount
  | cons x xs ih =>
    by_cases hxa : x = a
    · subst hxa
      rw [List.count_cons_self] at hcount
      have hxs : x ∉ xs := by
        intro hmem
        have := List.count_pos_iff.mpr hmem
        omega
      have hnil : xs.flatMap f = [] := by
        rw [List.flatMap_eq_nil_iff]
        intro y hy
        rw [h y (List.mem_cons_of_mem _ hy)]
        have : y ≠ x := fun hyx => hxs (hyx ▸ hy)
        simp [this]
      rw [List.flatMap_cons, hnil, h x (List.mem_cons_self x xs), if_pos rfl,
        List.append_nil]
    · rw [List.count_cons_of_ne (fun hax => hxa hax.symm)] at hcount
      rw [List.flatMap_cons, h x (List.mem_cons_self x xs), if_neg hxa, List.nil_append]
      exact ih hcount (fun y hy => h y (List.mem_cons_of_mem _ hy))

theorem mem_setdefaultAppend_codes {m : List (ℕ × List String)} {k : ℕ} {v : String}
    {kv : ℕ × List String} (hkv : kv ∈ setdefaultAppend m k v) {c : String}
    (hc : c ∈ kv.2) : (∃ kv' ∈ m, c ∈ kv'.2) ∨ c = v := by
  induction m with
  | nil =>
    simp only [setdefaultAppend, List.mem_singleton] at hkv
    subst hkv
    simp only [List.mem_singleton] at hc
    right; exact hc
  | cons hd tl ih =>
    obtain ⟨k0, v0⟩ := hd
    simp only [setdefaultAppend] at hkv
    split at hkv
    · rcases List.mem_cons.mp hkv with heq | hmem
      · subst heq
        rcases List.mem_append.mp hc with h1 | h1
        · left; exact ⟨(k0, v0), List.mem_cons_self _ _, h1⟩
        · right; simpa using h1
      · left; exact ⟨kv, List.mem_cons_of_mem _ hmem, hc⟩
    · rcases List.mem_cons.mp hkv with heq | hmem
      · subst heq; left; exact ⟨(k0, v0), List.mem_cons_self _ _, hc⟩
      · rcases ih hmem with ⟨kv', hkv', hc'⟩ | h1
        · left; exact ⟨kv', List.mem_cons_of_mem _ hkv', hc'⟩
        · right; exact h1

theorem foldl_setdefaultAppend_codes (pairs : List (ℕ × String))
    (m : List (ℕ × List String)) {kv : ℕ × List String}
    (hkv : kv ∈ pairs.foldl (fun m p => setdefaultAppend m p.1 p.2) m) {c : String}
    (hc : c ∈ kv.2) : (∃ kv' ∈ m, c ∈ kv'.2) ∨ ∃ p ∈ pairs, p.2 = c := by
  induction pairs generalizing m with
  | nil => left; exact ⟨kv, by simpa using hkv, hc⟩
  | cons p ps ih =>
    simp only [List.foldl_cons] at hkv
    rcases ih _ hkv with h1 | h1
    · obtain ⟨kv', hkv', hc'⟩ := h1
      rcases mem_setdefaultAppend_codes hkv' hc' with h2 | h2
      · left; exact h2
      · right; exact ⟨p, List.mem_cons_self _ _, h2.symm⟩
    · right
      obtain ⟨q, hq, hqc⟩ := h1
      exact ⟨q, List.mem_cons_of_mem _ hq, hqc⟩

theorem mem_carrierRiskSites_codes {pairs : List (ℕ × String)}
    {kv : ℕ × List String} (hkv : kv ∈ carrierRiskSites pairs) {c : String}
    (hc : c ∈ kv.2) : ∃ p ∈ pairs, p.2 = c := by
  rcases foldl_setdefaultAppend_codes pairs [] hkv hc with h1 | h1
  · simp at h1
  · exact h1

theorem mem_riskPairs (active : List Load) (sites : List Site) {p : ℕ × String}
    (hp : p ∈ riskPairs active sites) :
    ∃ s ∈ sites, ∃ l ∈ loadsBySite active s.id, p = (l.carrier_id, s.consignee_code) := by
  obtain ⟨s, hs, hps⟩ := List.mem_flatMap.mp hp
  refine ⟨s, hs, ?_⟩
  unfold riskPairsOfSite at hps
  split at hps
  · obtain ⟨l, hl, hpl⟩ := List.mem_map.mp hps
    exact ⟨l, hl, hpl.symm⟩
  · simp at hps

theorem run_rules_check_eq (db : RulesDB) (now : ℚ) (agent_id : ℕ) (ag : AIAgent)
    (hag : findAgent db agent_id = some ag)
    (hne : (assignedSites db agent_id).isEmpty = false) :
    run_rules_check db now agent_id =
      { actions := (assignedSites db agent_id).flatMap
          (siteActions now (activeLoads db ((assignedSites db agent_id).map Site.id))),
        tier2_flags := (assignedSites db agent_id).flatMap
            (siteFlags db (activeLoads db ((assignedSites db agent_id).map Site.id))) ++
          rule5Flags db (carrierRiskSites (riskPairs
            (activeLoads db ((assignedSites db agent_id).map Site.id))
            (assignedSites db agent_id))),
        sites_checked := (assignedSites db agent_id).length,
        loads_checked := (activeLoads db ((assignedSites db agent_id).map Site.id)).length,
        summary := mkSummary (assignedSites db agent_id).length
          (activeLoads db ((assignedSites db agent_id).map Site.id)).length
          ((assignedSites db agent_id).flatMap
            (siteActions now (activeLoads db ((assignedSites db agent_id).map Site.id))))
          ((assignedSites db agent_id).flatMap
              (siteFlags db (activeLoads db ((assignedSites db agent_id).map Site.id))) ++
            rule5Flags db (carrierRiskSites (riskPairs
              (activeLoads db ((assignedSites db agent_id).map Site.id))
              (assignedSites db agent_id)))) } := by
  unfold run_rules_check
  rw [hag]
  simp [hne]

/-- C1 (amended): for every assigned site whose `hours_to_runout` is a
nonzero value h < 12 and which has no active loads, one Tier 1 pass emits
exactly the one rule-1 critical escalation action for that site and no other
action or flag referencing it.  (The nonzero condition is forced by
`site.hours_to_runout or 999`, which maps 0 to 999 — see the
counterexample.) -/
theorem C1_rule1_exclusive
    (db : RulesDB) (now : ℚ) (agent_id : ℕ) (site : Site) (h : ℚ) (ag : AIAgent)
    (hag : findAgent db agent_id = some ag)
    (hmem : site ∈ assignedSites db agent_id)
    (hids : ((assignedSites db agent_id).map Site.id).Nodup)
    (hcode : ∀ s ∈ assignedSites db agent_id,
      s.consignee_code = site.consignee_code → s = site)
    (hh : site.hours_to_runout = some h) (h0 : h ≠ 0) (h12 : h < 12)
    (hnoloads : loadsBySite
      (activeLoads db ((assignedSites db agent_id).map Site.id)) site.id = []) :
    actionsForSite (run_rules_check db now agent_id) site.id = [rule1Action site h] ∧
    flagsForSite (run_rules_check db now agent_id) site = [] := by
  have hne : (assignedSites db agent_id).isEmpty = false := by
    cases hsl : assignedSites db agent_id with
    | nil => rw [hsl] at hmem; simp at hmem
    | cons a l => rfl
  rw [run_rules_check_eq db now agent_id ag hag hne]
  set sites := assignedSites db agent_id with hsites
  set active := activeLoads db (sites.map Site.id) with hactive
  have hinj : ∀ s ∈ sites, s.id = site.id → s = site := by
    intro s hs hid
    exact List.inj_on_of_nodup_map hids hs hmem hid
  have hsiteacts : siteActions now active site = [rule1Action site h] := by
    simp only [siteActions, hnoloads, hh, hoursOr999, if_neg h0, List.isEmpty_nil,
      and_true]
    rw [if_pos h12]
  constructor
  · unfold actionsForSite
    simp only
    rw [filter_flatMap']
    apply flatMap_eq_single sites _ site
    · exact List.count_eq_one_of_mem (List.Nodup.of_map _ hids) hmem
    · intro s hs
      by_cases hseq : s = site
      · subst hseq
        rw [if_pos rfl, hsiteacts]
        simp [rule1Action]
      · rw [if_neg hseq]
        rw [List.filter_eq_nil_iff]
        intro a ha
        have hsid := mem_siteActions_site_id now active s a ha
        have hid : s.id ≠ site.id := fun hx => hseq (hinj s hs hx)
        simp [hsid, hid]
  · unfold flagsForSite
    simp only
    rw [List.filter_append]
    have h3c : ((sites.flatMap (siteFlags db active)).filter (fun f =>
        f.site_id == some site.id || f.at_risk_sites.contains site.consignee_code)) = [] := by
      rw [filter_flatMap', List.flatMap_eq_nil_iff]
      intro s hs
      by_cases hseq : s = site
      · subst hseq
        have : siteFlags db active s = [] := by
          simp only [siteFlags, hnoloads, hh, hoursOr999, if_neg h0, List.isEmpty_nil,
            and_true]
          rw [if_pos h12]
        rw [this]
        rfl
      · rw [List.filter_eq_nil_iff]
        intro f hf
        obtain ⟨-, hsid, hrisk⟩ := mem_siteFlags_fields db active s f hf
        have hid : s.id ≠ site.id := fun hx => hseq (hinj s hs hx)
        simp [hsid, hrisk, hid]
    have h5 : ((rule5Flags db (carrierRiskSites (riskPairs active sites))).filter (fun f =>
        f.site_id == some site.id || f.at_risk_sites.contains site.consignee_code)) = [] := by
      rw [List.filter_eq_nil_iff]
      intro f hf
      obtain ⟨-, hsidnone, kv, hkv, -, hrisk, -⟩ :=
        mem_rule5Flags_fields db _ f hf
      have hnotc : site.consignee_code ∉ kv.2 := by
        intro hc
        obtain ⟨p, hp, hpc⟩ := mem_carrierRiskSites_codes hkv hc
        obtain ⟨s, hs, l, hl, hpl⟩ := mem_riskPairs active sites hp
        have hcodes : s.consignee_code = site.consignee_code := by
          rw [hpl] at hpc
          exact hpc
        have hseq := hcode s hs hcodes
        subst hseq
        rw [hnoloads] at hl
        simp at hl
      rw [hrisk]
      simp [hsidnone, hnotc]
    rw [h3c, h5]
    rfl

/-! ### Counting lemmas for the rule-5 dict -/

/-- All codes held under key `c` in the dict (proof-side helper). -/
def codesFor : List (ℕ × List String) → ℕ → List String
  | [], _ => []
  | kv :: tl, c => (if kv.1 = c then kv.2 else []) ++ codesFor tl c

def keysOf (m : List (ℕ × List String)) : List ℕ := m.map Prod.fst

theorem codesFor_setdefaultAppend (m : List (ℕ × List String)) (k : ℕ) (v : String)
    (c : ℕ) : (codesFor (setdefaultAppend m k v) c).length =
      (codesFor m c).length + (if k = c then 1 else 0) := by
  induction m with
  | nil =>
    by_cases hkc : k = c <;> simp [setdefaultAppend, codesFor, hkc]
  | cons hd tl ih =>
    obtain ⟨k0, v0⟩ := hd
    simp only [setdefaultAppend]
    split
    · rename_i hk0
      subst hk0
      by_cases hk0c : k0 = c
      · simp [codesFor, hk0c, List.length_append]
        omega
      · simp [codesFor, hk0c, List.length_append]
    · rename_i hk0
      by_cases hk0c : k0 = c <;>
        simp only [codesFor, hk0c, if_true, if_false, List.length_append, ih] <;>
        omega

theorem codesFor_foldl (ps : List (ℕ × String)) (m : List (ℕ × List String)) (c : ℕ) :
    (codesFor (ps.foldl (fun m p => setdefaultAppend m p.1 p.2) m) c).length =
      (codesFor m c).length + (ps.filter (fun p => p.1 == c)).length := by
  induction ps generalizing m with
  | nil => simp
  | cons p pstl ih =>
    simp only [List.foldl_cons, List.filter_cons]
    rw [ih, codesFor_setdefaultAppend]
    by_cases hpc : p.1 = c
    · simp only [hpc, beq_self_eq_true, if_true, List.length_cons]
      omega
    · have : (p.1 == c) = false := by
        simp only [beq_eq_false_iff_ne, ne_eq]; exact hpc
      simp [hpc, this]

theorem mem_keysOf_setdefaultAppend {m : List (ℕ × List String)} {k : ℕ} {v : String}
    {x : ℕ} (hx : x ∈ keysOf (setdefaultAppend m k v)) :
    x ∈ keysOf m ∨ x = k := by
  induction m with
  | nil =>
    simp [setdefaultAppend, keysOf] at hx
    right; exact hx
  | cons hd tl ih =>
    obtain ⟨k0, v0⟩ := hd
    simp only [setdefaultAppend] at hx
    split at hx
    · left
      simpa [keysOf] using hx
    · simp only [keysOf, List.map_cons, List.mem_cons] at hx
      rcases hx with h1 | h1
      · left; simp [keysOf, h1]
      · rcases ih h1 with h2 | h2
        · left; simp only [keysOf, List.map_cons, List.mem_cons]; right; exact h2
        · right; exact h2

theorem nodup_keysOf_setdefaultAppend {m : List (ℕ × List String)} (k : ℕ) (v : String)
    (hm : (keysOf m).Nodup) : (keysOf (setdefaultAppend m k v)).Nodup := by
  induction m with
  | nil => simp [setdefaultAppend, keysOf]
  | cons hd tl ih =>
    obtain ⟨k0, v0⟩ := hd
    simp only [keysOf, List.map_cons, List.nodup_cons] at hm
    simp only [setdefaultAppend]
    split
    · simpa [keysOf, List.nodup_cons] using hm
    · rename_i hk0
      simp only [keysOf, List.map_cons, List.nodup_cons]
      refine ⟨?_, ih hm.2⟩
      intro hx
      rcases mem_keysOf_setdefaultAppend hx with h1 | h1
      · exact hm.1 h1
      · exact hk0 h1
    
theorem nodup_keysOf_carrierRiskSites (ps : List (ℕ × String)) :
    (keysOf (carrierRiskSites ps)).Nodup := by
  have haux : ∀ (ps : List (ℕ × String)) (m : List (ℕ × List String)),
      (keysOf m).Nodup →
      (keysOf (ps.foldl (fun m p => setdefaultAppend m p.1 p.2) m)).Nodup := by
    intro ps
    induction ps with
    | nil => intro m hm; simpa using hm
    | cons p pstl ih =>
      intro m hm
      simp only [List.foldl_cons]
      exact ih _ (nodup_keysOf_setdefaultAppend p.1 p.2 hm)
  exact haux ps [] (by simp [keysOf])

theorem codesFor_eq_nil_of_not_mem {m : List (ℕ × List String)} {c : ℕ}
    (h : c ∉ keysOf m) : codesFor m c = [] := by
  induction m with
  | nil => rfl
  | cons hd tl ih =>
    simp only [keysOf, List.map_cons, List.mem_cons, not_or] at h
    simp only [codesFor]
    rw [if_neg (fun hx => h.1 hx.symm), ih h.2]
    rfl

theorem codesFor_of_mem {m : List (ℕ × List String)} {kv : ℕ × List String} {c : ℕ}
    (hnd : (keysOf m).Nodup) (hkv : kv ∈ m) (hc : kv.1 = c) :
    codesFor m c = kv.2 := by
  induction m with
  | nil => simp at hkv
  | cons hd tl ih =>
    simp only [keysOf, List.map_cons, List.nodup_cons] at hnd
    rcases List.mem_cons.mp hkv with heq | hmem
    · subst heq
      simp only [codesFor, hc, if_true]
      have hnot : c ∉ keysOf tl := hc ▸ hnd.1
      rw [codesFor_eq_nil_of_not_mem hnot, List.append_nil]
    · have hc_tl : c ∈ keysOf tl := by
        simp only [keysOf, List.mem_map]
        exact ⟨kv, hmem, hc⟩
      have hne : hd.1 ≠ c := fun hx => hnd.1 (hx ▸ hc_tl)
      simp only [codesFor]
      rw [if_neg hne, List.nil_append]
      exact ih hnd.2 hmem

theorem exists_entry_of_codesFor_ne_nil {m : List (ℕ × List String)} {c : ℕ}
    (h : codesFor m c ≠ []) : ∃ kv ∈ m, kv.1 = c := by
  by_contra hno
  push_neg at hno
  apply h
  apply codesFor_eq_nil_of_not_mem
  intro hc
  simp only [keysOf, List.mem_map] at hc
  obtain ⟨kv, hkv, hk⟩ := hc
  exact hno kv hkv hk

/-- The number of (at-risk assigned site, active load) pairs whose load
belongs to carrier c in one Tier 1 pass for `agent_id`. -/
def carrierRiskLoadCount (db : RulesDB) (agent_id c : ℕ) : ℕ :=
  ((riskPairs (activeLoads db ((assignedSites db agent_id).map Site.id))
      (assignedSites db agent_id)).filter (fun p => p.1 == c)).length

/-- C7 (amended): one Tier 1 pass emits a `multi_site_carrier_risk` flag for
carrier c iff c holds more than one (at-risk assigned site, active load)
pair — counted per load, so two active loads at the SAME at-risk site also
trigger the flag; a site is at risk when
`(hours_to_runout or 999) < runout_threshold_hours`, so sites whose
hours_to_runout is 0 or missing are never at risk. -/
theorem C7_multi_site_flag_iff
    (db : RulesDB) (now : ℚ) (agent_id c : ℕ) (ag : AIAgent)
    (hag : findAgent db agent_id = some ag) :
    (∃ f ∈ (run_rules_check db now agent_id).tier2_flags,
        f.reason = "multi_site_carrier_risk" ∧ f.carrier_id = some c) ↔
      1 < carrierRiskLoadCount db agent_id c := by
  have hcount : ∀ ps : List (ℕ × String),
      (codesFor (carrierRiskSites ps) c).length = (ps.filter (fun p => p.1 == c)).length := by
    intro ps
    unfold carrierRiskSites
    rw [codesFor_foldl]
    simp [codesFor]
  by_cases hemp : (assignedSites db agent_id).isEmpty = true
  · have hsn : assignedSites db agent_id = [] := by
      cases h : assignedSites db agent_id with
      | nil => rfl
      | cons a l => rw [h] at hemp; simp at hemp
    have hrun : (run_rules_check db now agent_id).tier2_flags = [] := by
      unfold run_rules_check
      rw [hag]
      simp [hemp]
    rw [hrun]
    simp only [List.not_mem_nil, false_and, exists_false, false_iff, not_lt]
    unfold carrierRiskLoadCount
    rw [hsn]
    simp [riskPairs]
  · have hne : (assignedSites db agent_id).isEmpty = false := by
      cases h : (assignedSites db agent_id).isEmpty
      · rfl
      · exact absurd h hemp
    rw [run_rules_check_eq db now agent_id ag hag hne]
    simp only
    constructor
    · rintro ⟨f, hf, hreason, hcar⟩
      rcases List.mem_append.mp hf with h3c | h5
      · obtain ⟨s, -, hfs⟩ := List.mem_flatMap.mp h3c
        obtain ⟨hre, -, -⟩ := mem_siteFlags_fields db _ s f hfs
        rw [hre] at hreason
        simp at hreason
      · have hex : ∃ f ∈ rule5Flags db (carrierRiskSites (riskPairs
            (activeLoads db ((assignedSites db agent_id).map Site.id))
            (assignedSites db agent_id))), f.carrier_id = some c := ⟨f, h5, hcar⟩
        obtain ⟨kv, hkv, hk1, hklen⟩ := (rule5Flags_mem_iff db _ c).mp hex
        have hcodes := codesFor_of_mem (nodup_keysOf_carrierRiskSites _) hkv hk1
        unfold carrierRiskLoadCount
        rw [← hcount, hcodes]
        exact hklen
    · intro hcnt
      unfold carrierRiskLoadCount at hcnt
      rw [← hcount] at hcnt
      have hnil : codesFor (carrierRiskSites (riskPairs
          (activeLoads db ((assignedSites db agent_id).map Site.id))
          (assignedSites db agent_id))) c ≠ [] := by
        intro hx
        rw [hx] at hcnt
        simp at hcnt
      obtain ⟨kv, hkv, hk1⟩ := exists_entry_of_codesFor_ne_nil hnil
      have hcodes := codesFor_of_mem (nodup_keysOf_carrierRiskSites _) hkv hk1
      have hklen : 1 < kv.2.length := hcodes ▸ hcnt
      obtain ⟨f, hf, hfc⟩ := (rule5Flags_mem_iff db _ c).mpr ⟨kv, hkv, hk1, hklen⟩
      refine ⟨f, List.mem_append_right _ hf, ?_, hfc⟩
      obtain ⟨hre, -, -⟩ := mem_rule5Flags_fields db _ f hf
      exact hre

/-- C9 (amended): a site whose `hours_to_runout` is 0 or missing is treated
as having 999 hours: rules 1-3 cannot fire for it (rule 3 additionally needs
its threshold ≤ 999, which every realistic threshold satisfies), its loads
never count toward the rule-5 correlation, but rule 4 (delayed load at a
site considered OK) CAN still fire, since 999 ≥ threshold. -/
theorem C9_zero_hours_as_999
    (db : RulesDB) (now : ℚ) (active : List Load) (site : Site)
    (hh : site.hours_to_runout = none ∨ site.hours_to_runout = some 0)
    (ht : site.runout_threshold_hours ≤ 999) :
    hoursOr999 site.hours_to_runout = 999 ∧
    siteActions now active site =
      (loadsBySite active site.id).flatMap (rule4Actions now site 999) ∧
    siteFlags db active site = [] ∧
    riskPairsOfSite active site = [] ∧
    ∀ a ∈ siteActions now active site, a.rule = "delayed_load_site_ok" := by
  have h999 : hoursOr999 site.hours_to_runout = 999 := by
    rcases hh with h1 | h1 <;> simp [h1, hoursOr999]
  have hn12 : ¬ ((999:ℚ) < 12) := by norm_num
  have hn24 : ¬ ((999:ℚ) < 24) := by norm_num
  have hnth : ¬ ((999:ℚ) < site.runout_threshold_hours) := not_lt.mpr ht
  have hacts : siteActions now active site =
      (loadsBySite active site.id).flatMap (rule4Actions now site 999) := by
    simp only [siteActions, h999]
    rw [if_neg (fun hx => hn12 hx.1), if_neg (fun hx => hn24 hx.1),
      if_neg (fun hx => hnth hx.1), if_pos ht]
    simp
  refine ⟨h999, hacts, ?_, ?_, ?_⟩
  · simp only [siteFlags, h999]
    rw [if_neg (fun hx => hn12 hx.1), if_neg (fun hx => hn24 hx.1),
      if_neg (fun hx => hnth hx.1)]
  · simp only [riskPairsOfSite, h999]
    rw [if_neg hnth]
  · intro a ha
    rw [hacts] at ha
    obtain ⟨l, -, hal⟩ := List.mem_flatMap.mp ha
    simp only [rule4Actions] at hal
    split at hal
    · split at hal
      · simp only [List.mem_singleton] at hal
        subst hal; rfl
      · simp at hal
    · simp at hal

/-! ### Concrete Tier 1 scenarios -/

/-- Agent 1 for the concrete scenarios. -/
def agentOne : AIAgent := { id := 1, execution_mode := .full_auto }

/-- A site already at runout: `hours_to_runout = 0`. -/
def siteZeroHours : Site :=
  { id := 1, consignee_code := "S1", hours_to_runout := some 0,
    runout_threshold_hours := 48, assigned_agent_id := some 1 }

/-- Database for the C1 counterexample: one assigned site at 0 hours to
runout, no loads at all. -/
def dbC1x : RulesDB := { agents := [agentOne], sites := [siteZeroHours] }

/-- C1 counterexample: a site with `hours_to_runout = 0` (so < 12) and zero
active loads receives NO action at all — `site.hours_to_runout or 999` maps
0 to 999, rule 1 does not fire, and the pass emits nothing, contradicting
"exactly one CRITICAL escalation for that site". -/
theorem C1_counterexample :
    dbC1x.sites.map (fun s => (s.hours_to_runout, s.assigned_agent_id)) =
      [(some 0, some 1)] ∧
    dbC1x.loads = [] ∧
    (run_rules_check dbC1x 0 1).actions = [] := ⟨rfl, rfl, rfl⟩

/-- A site 10 hours from runout with no loads (C1 witness scenario). -/
def siteTenHours : Site :=
  { id := 1, consignee_code := "S1", hours_to_runout := some 10,
    runout_threshold_hours := 48, assigned_agent_id := some 1 }

def dbC1w : RulesDB := { agents := [agentOne], sites := [siteTenHours] }

/-- Witness for C1 at a concrete input. -/
theorem C1_rule1_exclusive_witness :
    actionsForSite (run_rules_check dbC1w 0 1) 1 = [rule1Action siteTenHours 10] ∧
    flagsForSite (run_rules_check dbC1w 0 1) siteTenHours = [] := by
  have h := C1_rule1_exclusive dbC1w 0 1 siteTenHours 10 agentOne rfl
    (by decide) (by decide) (by decide) rfl (by norm_num) (by norm_num) rfl
  exact ⟨h.1, h.2⟩

/-- A site 10h from runout with two active loads of the same carrier. -/
def siteC7 : Site :=
  { id := 1, consignee_code := "S1", hours_to_runout := some 10,
    runout_threshold_hours := 48, assigned_agent_id := some 1 }

def dbC7 : RulesDB :=
  { agents := [agentOne], sites := [siteC7],
    loads := [{ id := 10, po_number := "PO-2024-010", carrier_id := 7,
                destination_site_id := 1, status := .in_transit },
              { id := 11, po_number := "PO-2024-011", carrier_id := 7,
                destination_site_id := 1, status := .in_transit }] }

/-- C7 counterexample: carrier 7 holds two at-risk loads at ONE distinct
site, yet the `multi_site_carrier_risk` flag fires — the rule counts
(site, load) pairs, not distinct sites. -/
theorem C7_counterexample :
    dbC7.sites.length = 1 ∧
    ((run_rules_check dbC7 0 1).tier2_flags.map
        (fun f => (f.reason, f.carrier_id, f.at_risk_sites))) =
      [("multi_site_carrier_risk", some 7, ["S1", "S1"])] := ⟨rfl, rfl⟩

/-- Witness for C7 at the same concrete input. -/
theorem C7_multi_site_flag_iff_witness :
    ∃ f ∈ (run_rules_check dbC7 0 1).tier2_flags,
      f.reason = "multi_site_carrier_risk" ∧ f.carrier_id = some 7 :=
  (C7_multi_site_flag_iff dbC7 0 1 7 agentOne rfl).mpr (by decide)

/-- One delayed load headed to the zero-hours site (C9 scenario). -/
def dbC9 : RulesDB :=
  { agents := [agentOne], sites := [siteZeroHours],
    loads := [{ id := 10, po_number := "PO-2024-010", carrier_id := 7,
                destination_site_id := 1, status := .delayed }] }

/-- C9 counterexample: a site with `hours_to_runout = 0` is mapped to 999,
yet a rule-4 action (ETA email for its delayed load) still fires — the
claim's "no rule 1-4 action fires for that site" is too strong. -/
theorem C9_counterexample :
    dbC9.sites.map (fun s => s.hours_to_runout) = [some 0] ∧
    ((run_rules_check dbC9 0 1).actions.map
        (fun a => (a.action_type, a.rule, a.site_id, a.load_id))) =
      [("send_eta_email", "delayed_load_site_ok", some 1, some 10)] := ⟨rfl, rfl⟩

/-- Witness for C9 at a concrete input. -/
theorem C9_zero_hours_as_999_witness :
    hoursOr999 siteZeroHours.hours_to_runout = 999 ∧
    siteActions 0 (activeLoads dbC9 [1]) siteZeroHours =
      (loadsBySite (activeLoads dbC9 [1]) siteZeroHours.id).flatMap
        (rule4Actions 0 siteZeroHours 999) ∧
    siteFlags dbC9 (activeLoads dbC9 [1]) siteZeroHours = [] ∧
    riskPairsOfSite (activeLoads dbC9 [1]) siteZeroHours = [] ∧
    ∀ a ∈ siteActions 0 (activeLoads dbC9 [1]) siteZeroHours,
      a.rule = "delayed_load_site_ok" :=
  C9_zero_hours_as_999 dbC9 0 (activeLoads dbC9 [1]) siteZeroHours
    (Or.inr rfl) (by norm_num [siteZeroHours])

/-! ### Email ETA parser (`utils/email_parser.py`)

The regex patterns of the source are embedded as explicit character-list
scanners with Python `re` leftmost/greedy semantics (ASCII fragment: the
source compiles its patterns against `str` bodies, which here are ASCII
emails).  Timestamps are rational seconds; a datetime's calendar day is
`⌊t / 86400⌋`. -/

/-- ASCII fragment of regex `\w` (letters, digits, underscore). -/
def isWordChar (c : Char) : Bool := c.isAlphanum || c == '_'

/-- ASCII fragment of regex `\s` / Python `str.strip()` whitespace. -/
def isSpaceChar (c : Char) : Bool :=
  c == ' ' || c == '\t' || c == '\n' || c == '\r' ||
  c == Char.ofNat 11 || c == Char.ofNat 12

/-- Match a literal at the head; returns the rest. -/
def dropLit (pat s : List Char) : Option (List Char) :=
  match pat, s with
  | [], _ => some s
  | _ :: _, [] => none
  | p :: ps, c :: cs => if p = c then dropLit ps cs else none

/-- Match a literal case-insensitively at the head (for `re.IGNORECASE`). -/
def dropLitCI (pat s : List Char) : Option (List Char) :=
  match pat, s with
  | [], _ => some s
  | _ :: _, [] => none
  | p :: ps, c :: cs => if p.toLower = c.toLower then dropLitCI ps cs else none

/-- `\s+` (greedy; safe without backtracking as no pattern needs less). -/
def dropWs1 (s : List Char) : Option (List Char) :=
  match s with
  | c :: cs => if isSpaceChar c then some (cs.dropWhile isSpaceChar) else none
  | [] => none

/-- `\s*`. -/
def dropWs (s : List Char) : List Char := s.dropWhile isSpaceChar

/-- Numeric value of a digit run. -/
def natOfDigits (ds : List Char) : ℕ :=
  ds.foldl (fun n c => 10 * n + (c.toNat - 48)) 0

/-- `re.search`: try the matcher at each position, leftmost first. -/
def searchWith {α : Type} (m : List Char → Option α) : List Char → Option α
  | [] => m []
  | c :: cs =>
    match m (c :: cs) with
    | some r => some r
    | none => searchWith m cs

/-- `re.search` for patterns with a leading `\b`: the matcher also sees the
preceding character (if any). -/
def searchWithPrev {α : Type} (m : Option Char → List Char → Option α) :
    Option Char → List Char → Option α
  | prev, [] => m prev []
  | prev, c :: cs =>
    match m prev (c :: cs) with
    | some r => some r
    | none => searchWithPrev m (some c) cs

/-- Is this position a non-word boundary side (start of string or previous
character not a word character)? -/
def boundaryBefore : Option Char → Bool
  | none => true
  | some c => !isWordChar c

/-- `\b` after a match: next character (if any) is not a word character. -/
def boundaryAfter : List Char → Bool
  | [] => true
  | c :: _ => !isWordChar c

/-- Matcher for `between\s+(\d{3,4})\s+and\s+(\d{3,4})` at one position
(email_parser.py line 289).  `\d{3,4}` followed by `\s+` matches iff the
maximal digit run has length 3 or 4 (a longer run fails both greedy
alternatives); the final `\d{3,4}` takes at most 4 digits of a run of ≥ 3. -/
def matchBetweenAt (s : List Char) : Option (String × String) := do
  let s ← dropLit "between".data s
  let s ← dropWs1 s
  let r1 := s.takeWhile Char.isDigit
  if r1.length < 3 ∨ 4 < r1.length then none
  else do
    let s ← dropWs1 (s.drop r1.length)
    let s ← dropLit "and".data s
    let s ← dropWs1 s
    let r2 := s.takeWhile Char.isDigit
    if r2.length < 3 then none
    else some (⟨r1⟩, ⟨r2.take 4⟩)

/-- `(am|pm)`; returns the matched period and the rest. -/
def matchAmPm (s : List Char) : Option (String × List Char) :=
  match dropLit "am".data s with
  | some rest => some ("am", rest)
  | none =>
    match dropLit "pm".data s with
    | some rest => some ("pm", rest)
    | none => none

/-- Matcher for `(\d{1,2})\s*-\s*(\d{1,2})\s*(am|pm)` at one position
(email_parser.py line 294).  A digit run longer than 2 fails both greedy
alternatives of `\d{1,2}` here, as the next pattern element cannot match a
digit. -/
def matchHRangeAt (s : List Char) : Option (ℕ × ℕ × String) := do
  let r1 := s.takeWhile Char.isDigit
  if r1.length = 0 ∨ 2 < r1.length then none
  else do
    let s ← dropLit "-".data (dropWs (s.drop r1.length))
    let s := dropWs s
    let r2 := s.takeWhile Char.isDigit
    if r2.length = 0 ∨ 2 < r2.length then none
    else do
      let (p, _) ← matchAmPm (dropWs (s.drop r2.length))
      some (natOfDigits r1, natOfDigits r2, p)

/-- `(\d{1,2}):` with Python's greedy backtracking: two digits then a colon,
else one digit then a colon. -/
def matchD12Colon (s : List Char) : Option (ℕ × List Char) :=
  match s with
  | a :: b :: c :: rest =>
    if a.isDigit && b.isDigit && c = ':' then
      some (10 * (a.toNat - 48) + (b.toNat - 48), rest)
    else if a.isDigit && b = ':' then some (a.toNat - 48, c :: rest)
    else none
  | [a, b] => if a.isDigit && b = ':' then some (a.toNat - 48, []) else none
  | _ => none

/-- `(\d{2})` (exactly two digits). -/
def matchDD (s : List Char) : Option (ℕ × List Char) :=
  match s with
  | a :: b :: rest =>
    if a.isDigit && b.isDigit then
      some (10 * (a.toNat - 48) + (b.toNat - 48), rest)
    else none
  | _ => none

/-- Matcher for
`(\d{1,2}):(\d{2})\s*(am|pm)\s*-\s*(\d{1,2}):(\d{2})\s*(am|pm)` at one
position (email_parser.py line 309). -/
def matchHMRangeAt (s : List Char) :
    Option (ℕ × ℕ × String × ℕ × ℕ × String) := do
  let (h1, s) ← matchD12Colon s
  let (m1, s) ← matchDD s
  let (p1, s) ← matchAmPm (dropWs s)
  let s ← dropLit "-".data (dropWs s)
  let (h2, s) ← matchD12Colon (dropWs s)
  let (m2, s) ← matchDD s
  let (p2, _) ← matchAmPm (dropWs s)
  some (h1, m1, p1, h2, m2, p2)

/-- Digit character of a value < 10. -/
def digitChar (n : ℕ) : Char := Char.ofNat (48 + n)

/-- Python `f"{n:02d}"`: zero-pad to two digits, wider if needed. -/
def fmt02 (n : ℕ) : String :=
  if n < 10 then ⟨['0', digitChar n]⟩
  else if n < 100 then ⟨[digitChar (n / 10), digitChar (n % 10)]⟩
  else ⟨[digitChar (n / 100), digitChar (n / 10 % 10), digitChar (n % 10)]⟩

/-- `normalize_time` (email_parser.py lines 352-357). -/
def normalize_time (time_str : String) : String :=
  let t := (time_str.data.dropWhile isSpaceChar).reverse.dropWhile isSpaceChar |>.reverse
  if t.length = 3 then ⟨'0' :: t⟩ else ⟨t⟩

/-- `extract_time_range` (email_parser.py lines 286-319): the three range
patterns in source order, with the source's hour arithmetic. -/
def extract_time_range (text : String) : Option (String × String) :=
  match searchWith matchBetweenAt text.data with
  | some (g1, g2) => some (normalize_time g1, normalize_time g2)
  | none =>
  match searchWith matchHRangeAt text.data with
  | some (sh, eh, period) =>
    let se :=
      if period = "pm" ∧ sh ≠ 12 then (sh + 12, eh + 12)
      else if period = "am" ∧ sh = 12 then (0, eh)
      else (sh, eh)
    let endh := if period = "am" ∧ se.2 = 12 then 0 else se.2
    some (fmt02 se.1 ++ "00", fmt02 endh ++ "00")
  | none =>
  match searchWith matchHMRangeAt text.data with
  | some (sh, sm, sp, eh, em, ep) =>
    let sh := if sp = "pm" ∧ sh ≠ 12 then sh + 12 else sh
    let eh := if ep = "pm" ∧ eh ≠ 12 then eh + 12 else eh
    some (fmt02 sh ++ fmt02 sm, fmt02 eh ++ fmt02 em)
  | none => none

/-- Matcher for `\b([0-2]\d)([0-5]\d)\b` at one position
(email_parser.py line 325). -/
def matchMilitaryAt (prev : Option Char) (s : List Char) : Option String :=
  match s with
  | a :: b :: c :: d :: rest =>
    if boundaryBefore prev && ('0' ≤ a && a ≤ '2') && b.isDigit &&
        ('0' ≤ c && c ≤ '5') && d.isDigit && boundaryAfter rest then
      some ⟨[a, b, c, d]⟩
    else none
  | _ => none

/-- Matcher for `\b(\d{1,2}):(\d{2})\s*(am|pm)\b` at one position
(email_parser.py line 330). -/
def matchHMMAmPmAt (prev : Option Char) (s : List Char) : Option String := do
  if !boundaryBefore prev then none
  else do
    let (hour, s) ← matchD12Colon s
    let (minute, s) ← matchDD s
    let (p, rest) ← matchAmPm (dropWs s)
    if !boundaryAfter rest then none
    else
      let hour := if p = "pm" ∧ hour ≠ 12 then hour + 12
        else if p = "am" ∧ hour = 12 then 0 else hour
      some (fmt02 hour ++ fmt02 minute)

/-- Matcher for `\b(\d{1,2})\s*(am|pm)\b` at one position
(email_parser.py line 340). -/
def matchHAmPmAt (prev : Option Char) (s : List Char) : Option String := do
  if !boundaryBefore prev then none
  else
    let r := s.takeWhile Char.isDigit
    if r.length = 0 ∨ 2 < r.length then none
    else do
      let (p, rest) ← matchAmPm (dropWs (s.drop r.length))
      if !boundaryAfter rest then none
      else
        let hour := natOfDigits r
        let hour := if p = "pm" ∧ hour ≠ 12 then hour + 12
          else if p = "am" ∧ hour = 12 then 0 else hour
        some (fmt02 hour ++ "00")

/-- `extract_single_time` (email_parser.py lines 322-349). -/
def extract_single_time (text : String) : Option String :=
  match searchWithPrev matchMilitaryAt none text.data with
  | some t => some t
  | none =>
  match searchWithPrev matchHMMAmPmAt none text.data with
  | some t => some t
  | none => searchWithPrev matchHAmPmAt none text.data

/-- Match one vague pattern (`\bword(\s+word)*\b`) body: the words with
`\s+` between them. -/
def matchWordsAux : List (List Char) → List Char → Option (List Char)
  | [], s => some s
  | w :: ws, s => do
    let s ← dropLit w s
    match ws with
    | [] => some s
    | _ :: _ => do
      let s ← dropWs1 s
      matchWordsAux ws s

/-- One vague pattern at one position, with the `\b` checks at both ends. -/
def matchVagueAt (ws : List (List Char)) (prev : Option Char) (s : List Char) :
    Option Unit := do
  if !boundaryBefore prev then none
  else do
    let rest ← matchWordsAux ws s
    if !boundaryAfter rest then none else some ()

/-- The `vague_patterns` loop of `_parse_with_regex`
(email_parser.py lines 261-270). -/
def hasVague (text : String) : Bool :=
  let pats : List (List (List Char)) :=
    [["running".data, "late".data], ["delayed".data], ["not".data, "sure".data],
     ["don't".data, "know".data], ["unknown".data]]
  pats.any (fun p => (searchWithPrev (matchVagueAt p) none text.data).isSome)

/-- Python `str.strip()`. -/
def pyStrip (s : List Char) : List Char :=
  (s.dropWhile isSpaceChar).reverse.dropWhile isSpaceChar |>.reverse

/-- Python `str.lower()` (ASCII fragment). -/
def pyLower (s : String) : String := ⟨s.data.map Char.toLower⟩

/-- `startswith`. -/
def startsWithLit (pat s : List Char) : Bool := (dropLit pat s).isSome

/-- `^On\s+\w{3},\s+\w{3}\s+\d` with IGNORECASE, anchored at a line start
(email_parser.py line 41). -/
def isGmailQuote1 (line : List Char) : Bool :=
  (do
    let s ← dropLitCI "on".data line
    let s ← dropWs1 s
    match s with
    | a :: b :: c :: rest =>
      if isWordChar a && isWordChar b && isWordChar c then do
        let s ← dropLit ",".data rest
        let s ← dropWs1 s
        match s with
        | a2 :: b2 :: c2 :: rest2 =>
          if isWordChar a2 && isWordChar b2 && isWordChar c2 then do
            let s ← dropWs1 rest2
            match s with
            | d :: _ => if d.isDigit then some () else none
            | [] => none
          else none
        | _ => none
      else none
    | _ => none).isSome

/-- `(\d{1,2})/` with greedy backtracking. -/
def matchD12Slash (s : List Char) : Option (List Char) :=
  match s with
  | a :: b :: c :: rest =>
    if a.isDigit && b.isDigit && c = '/' then some rest
    else if a.isDigit && b = '/' then some (c :: rest)
    else none
  | [a, b] => if a.isDigit && b = '/' then some [] else none
  | _ => none

/-- `^On\s+\d{1,2}/\d{1,2}/\d{2,4}` with IGNORECASE, anchored at a line
start (email_parser.py line 43). -/
def isGmailQuote2 (line : List Char) : Bool :=
  (do
    let s ← dropLitCI "on".data line
    let s ← dropWs1 s
    let s ← matchD12Slash s
    let s ← matchD12Slash s
    if 2 ≤ (s.takeWhile Char.isDigit).length then some () else none).isSome

/-- Python `body.split('\n')` (keeps empty pieces). -/
def splitLines (s : List Char) : List (List Char) :=
  match s with
  | [] => [[]]
  | c :: cs =>
    let rest := splitLines cs
    if c = '\n' then [] :: rest
    else
      match rest with
      | r :: rs => (c :: r) :: rs
      | [] => [[c]]

/-- `'\n'.join`. -/
def joinLines : List (List Char) → List Char
  | [] => []
  | [l] => l
  | l :: ls => l ++ '\n' :: joinLines ls

/-- The line loop of `_strip_quoted_text` (email_parser.py lines 38-56):
stop at a quote header, drop `>`-quoted lines, keep the rest. -/
def stripQuotedLines : List (List Char) → List (List Char)
  | [] => []
  | line :: rest =>
    if isGmailQuote1 line || isGmailQuote2 line ||
        startsWithLit "-----Original Message".data (pyStrip line) ||
        10 ≤ ((pyStrip line).takeWhile (fun c => c = '_')).length ||
        pyStrip line = ['-', '-'] then []
    else if startsWithLit ">".data (pyStrip line) then stripQuotedLines rest
    else line :: stripQuotedLines rest

/-- `_strip_quoted_text` (email_parser.py lines 30-57). -/
def _strip_quoted_text (body : String) : String :=
  ⟨pyStrip (joinLines (stripQuotedLines (splitLines body.data)))⟩

/-- Hour of an `HHMM` string (int(s[:2]) on a validated string). -/
def hourOf (s : String) : ℕ :=
  match s.data with
  | h1 :: h2 :: _ => 10 * (h1.toNat - 48) + (h2.toNat - 48)
  | _ => 0

/-- Minute of an `HHMM` string (int(s[2:4]) on a validated string). -/
def minuteOf (s : String) : ℕ :=
  match s.data with
  | _ :: _ :: m1 :: m2 :: _ => 10 * (m1.toNat - 48) + (m2.toNat - 48)
  | _ => 0

/-- `validate_time_str` (email_parser.py lines 360-366): `^\d{4}$`, hour in
[0,23], minute in [0,59]. -/
def validate_time_str (time_str : String) : Bool :=
  match time_str.data with
  | [a, b, c, d] =>
    a.isDigit && b.isDigit && c.isDigit && d.isDigit &&
    decide (hourOf time_str ≤ 23) && decide (minuteOf time_str ≤ 59)
  | _ => false

/-- `MAX_ETA_FUTURE_HOURS` (email_parser.py line 370). -/
def MAX_ETA_FUTURE_HOURS : ℚ := 72

/-- `MAX_ETA_PAST_HOURS` (email_parser.py line 372). -/
def MAX_ETA_PAST_HOURS : ℚ := 1

/-- `combine_date_and_time` (email_parser.py lines 375-409), with `now` (the
source reads `now_local()`) as a parameter.  `base_date.replace(hour=h,
minute=m, second=0, microsecond=0)` keeps the calendar day of `base_date`,
whose midnight is `86400 * ⌊base_date / 86400⌋`. -/
def combine_date_and_time (base_date : ℚ) (time_str : String) (now : ℚ) :
    Option ℚ :=
  if ¬ validate_time_str time_str = true then none
  else
    let hour := hourOf time_str
    let minute := minuteOf time_str
    let eta0 : ℚ := 86400 * ⌊base_date / 86400⌋ + 3600 * hour + 60 * minute
    let eta := if eta0 < now then eta0 + 86400 else eta0
    if now + MAX_ETA_FUTURE_HOURS * 3600 < eta then none
    else if eta < now - MAX_ETA_PAST_HOURS * 3600 then none
    else some eta

/-- The text preprocessing of `_parse_with_regex` (email_parser.py lines
256-258): strip quoted reply text, fall back to the raw body when nothing
is left, lowercase, strip. -/
def regexText (body : String) : String :=
  let stripped := _strip_quoted_text body
  ⟨pyStrip (pyLower (if stripped.data.isEmpty then body else stripped)).data⟩

/-- `_parse_with_regex` (email_parser.py lines 254-283).  The `subject`
parameter is unused by the source too. -/
def _parse_with_regex (subject body : String) (sent_date now : ℚ) : Option ℚ :=
  let text := regexText body
  if hasVague text then none
  else
    match extract_time_range text with
    | some r => combine_date_and_time sent_date r.2 now
    | none =>
      match extract_single_time text with
      | some t => combine_date_and_time sent_date t now
      | none => none

/-- Outcome of the external language-model call inside `_parse_with_llm`:
`ok t` models a well-formed `{"status": "ok", "time_24h": t}` reply,
`vagueOrUnknown` the vague/unknown statuses.  The call's other failure modes
(no client, API error, malformed JSON) are the `none` oracle value. -/
inductive LLMOutcome where
  | ok (time_24h : String)
  | vagueOrUnknown
deriving DecidableEq, Repr

/-- Result of `_parse_with_llm` (email_parser.py lines 182-247):
`fallthrough` is the source's `None` (go to regex), `noResult` is the
`_LLM_NO_RESULT` sentinel. -/
inductive LLMParse where
  | fallthrough
  | noResult
  | eta (t : ℚ)
deriving DecidableEq, Repr

/-- `_parse_with_llm` with the external call's outcome as an oracle. -/
def _parse_with_llm (llm : Option LLMOutcome) (sent_date now : ℚ) : LLMParse :=
  match llm with
  | none => .fallthrough
  | some .vagueOrUnknown => .noResult
  | some (.ok time_str) =>
    if ¬ validate_time_str time_str = true then .fallthrough
    else
      match combine_date_and_time sent_date time_str now with
      | none => .noResult
      | some eta => .eta eta

/-- `parse_eta_from_email_with_method` (email_parser.py lines 73-92). -/
def parse_eta_from_email_with_method (llm : Option LLMOutcome)
    (subject body : String) (sent_date now : ℚ) : Option ℚ × Option String :=
  match _parse_with_llm llm sent_date now with
  | .noResult => (none, some "llm")
  | .eta t => (some t, some "llm")
  | .fallthrough =>
    match _parse_with_regex subject body sent_date now with
    | some t => (some t, some "regex")
    | none => (none, none)

/-! ### C4 and C5: parser guardrails and range policy -/

theorem validate_time_str_bounds {s : String} (h : validate_time_str s = true) :
    hourOf s ≤ 23 ∧ minuteOf s ≤ 59 := by
  unfold validate_time_str at h
  split at h
  · simp only [Bool.and_eq_true, decide_eq_true_eq] at h
    exact ⟨h.1.2, h.2⟩
  · simp at h

theorem window_gate {now eta t : ℚ}
    (h : (if now + MAX_ETA_FUTURE_HOURS * 3600 < eta then none
          else if eta < now - MAX_ETA_PAST_HOURS * 3600 then none
          else some eta) = some t) :
    now - MAX_ETA_PAST_HOURS * 3600 ≤ t ∧ t ≤ now + MAX_ETA_FUTURE_HOURS * 3600 := by
  split at h
  · exact absurd h (by simp)
  · split at h
    · exact absurd h (by simp)
    · rename_i hfar hpast
      rw [Option.some_inj] at h
      subst h
      push_neg at hfar hpast
      exact ⟨hpast, hfar⟩

theorem window_gate_value {now eta t : ℚ}
    (h : (if now + MAX_ETA_FUTURE_HOURS * 3600 < eta then none
          else if eta < now - MAX_ETA_PAST_HOURS * 3600 then none
          else some eta) = some t) : t = eta := by
  split at h
  · exact absurd h (by simp)
  · split at h
    · exact absurd h (by simp)
    · exact (Option.some_inj.mp h).symm

theorem combine_bounds {base_date now t : ℚ} {s : String}
    (h : combine_date_and_time base_date s now = some t) :
    now - MAX_ETA_PAST_HOURS * 3600 ≤ t ∧ t ≤ now + MAX_ETA_FUTURE_HOURS * 3600 := by
  unfold combine_date_and_time at h
  split at h
  · exact absurd h (by simp)
  · exact window_gate h

/-- The candidate timestamp before the roll-forward: `base_date`'s calendar
day at the parsed time of day. -/
def candidateEta (base_date : ℚ) (s : String) : ℚ :=
  86400 * ⌊base_date / 86400⌋ + 3600 * (hourOf s : ℚ) + 60 * (minuteOf s : ℚ)

/-- C4: any candidate time from either parsing stage is rejected unless its
hour is in [0,23] and minute in [0,59]; an accepted candidate whose
time-of-day already passed relative to `now` rolls to the next calendar day;
and a timestamp is returned only when it is at most 72h in the future and at
most 1h in the past of `now` — any accepted parse, from either stage, lies
in that window. -/
theorem C4_parser_guardrails (base_date : ℚ) (time_str : String) (now : ℚ) :
    (validate_time_str time_str = false →
      combine_date_and_time base_date time_str now = none) ∧
    (∀ t, combine_date_and_time base_date time_str now = some t →
      validate_time_str time_str = true ∧
      hourOf time_str ≤ 23 ∧ minuteOf time_str ≤ 59 ∧
      now - MAX_ETA_PAST_HOURS * 3600 ≤ t ∧
      t ≤ now + MAX_ETA_FUTURE_HOURS * 3600 ∧
      (candidateEta base_date time_str < now →
        t = candidateEta base_date time_str + 86400) ∧
      (¬ candidateEta base_date time_str < now →
        t = candidateEta base_date time_str)) ∧
    (∀ (llm : Option LLMOutcome) (subject body : String) (t : ℚ)
        (m : Option String),
      parse_eta_from_email_with_method llm subject body base_date now =
        (some t, m) →
      now - MAX_ETA_PAST_HOURS * 3600 ≤ t ∧
      t ≤ now + MAX_ETA_FUTURE_HOURS * 3600) := by
  refine ⟨?_, ?_, ?_⟩
  · intro hval
    unfold combine_date_and_time
    rw [if_pos (by rw [hval]; simp)]
  · intro t ht
    have hval : validate_time_str time_str = true := by
      by_contra hv
      have hv' : validate_time_str time_str = false := by
        cases h : validate_time_str time_str
        · rfl
        · exact absurd h hv
      unfold combine_date_and_time at ht
      rw [if_pos (by rw [hv']; simp)] at ht
      exact Option.noConfusion ht
    obtain ⟨hh, hm⟩ := validate_time_str_bounds hval
    obtain ⟨hp, hf⟩ := combine_bounds ht
    have hteta : t = if candidateEta base_date time_str < now then
        candidateEta base_date time_str + 86400
      else candidateEta base_date time_str := by
      unfold combine_date_and_time at ht
      rw [if_neg (by rw [hval]; simp)] at ht
      exact window_gate_value ht
    refine ⟨hval, hh, hm, hp, hf, ?_, ?_⟩
    · intro hlt
      rw [hteta, if_pos hlt]
    · intro hlt
      rw [hteta, if_neg hlt]
  · intro llm subject body t m hp
    have hreg : ∀ t' : ℚ, _parse_with_regex subject body base_date now = some t' →
        now - MAX_ETA_PAST_HOURS * 3600 ≤ t' ∧
        t' ≤ now + MAX_ETA_FUTURE_HOURS * 3600 := by
      intro t' ht'
      unfold _parse_with_regex at ht'
      simp only at ht'
      split at ht'
      · exact absurd ht' (by simp)
      · split at ht'
        · exact combine_bounds ht'
        · split at ht'
          · exact combine_bounds ht'
          · exact absurd ht' (by simp)
    unfold parse_eta_from_email_with_method at hp
    cases hllm : _parse_with_llm llm base_date now with
    | noResult =>
      rw [hllm] at hp
      simp at hp
    | eta t' =>
      rw [hllm] at hp
      simp only [Prod.mk.injEq, Option.some_inj] at hp
      unfold _parse_with_llm at hllm
      cases llm with
      | none => exact absurd hllm (by simp)
      | some o =>
        cases o with
        | vagueOrUnknown => exact absurd hllm (by simp)
        | ok ts =>
          simp only at hllm
          split at hllm
          · exact absurd hllm (by simp)
          · cases hc : combine_date_and_time base_date ts now with
            | none => rw [hc] at hllm; exact absurd hllm (by simp)
            | some e =>
              rw [hc] at hllm
              simp only [LLMParse.eta.injEq] at hllm
              subst hllm
              obtain ⟨h1, -⟩ := hp
              subst h1
              exact combine_bounds hc
    | fallthrough =>
      rw [hllm] at hp
      cases hr : _parse_with_regex subject body base_date now with
      | none => rw [hr] at hp; simp at hp
      | some t' =>
        rw [hr] at hp
        simp only [Prod.mk.injEq, Option.some_inj] at hp
        obtain ⟨h1, -⟩ := hp
        subst h1
        exact hreg _ hr

/-- Witness for C4 at concrete inputs: "2790" (hour 27) is rejected; "0100"
at midnight is accepted one hour ahead and lies in the window. -/
theorem C4_parser_guardrails_witness :
    combine_date_and_time 0 "2790" 0 = none ∧
    (validate_time_str "0100" = true ∧
      hourOf "0100" ≤ 23 ∧ minuteOf "0100" ≤ 59 ∧
      (0:ℚ) - MAX_ETA_PAST_HOURS * 3600 ≤ 3600 ∧
      (3600:ℚ) ≤ 0 + MAX_ETA_FUTURE_HOURS * 3600 ∧
      (candidateEta 0 "0100" < 0 → (3600:ℚ) = candidateEta 0 "0100" + 86400) ∧
      (¬ candidateEta 0 "0100" < 0 → (3600:ℚ) = candidateEta 0 "0100")) := by
  have hcomb : combine_date_and_time 0 "0100" 0 = some 3600 := by
    have hval : validate_time_str "0100" = true := by decide
    have hfl : (⌊(0:ℚ) / 86400⌋ : ℤ) = 0 := by norm_num
    unfold combine_date_and_time
    rw [if_neg (by rw [hval]; simp)]
    simp only [hfl, show hourOf "0100" = 1 from rfl, show minuteOf "0100" = 0 from rfl]
    norm_num [MAX_ETA_FUTURE_HOURS, MAX_ETA_PAST_HOURS]
  exact ⟨(C4_parser_guardrails 0 "2790" 0).1 (by decide),
    (C4_parser_guardrails 0 "0100" 0).2.1 3600 hcomb⟩

/-- C5 (amended): in the regex fallback stage, a body whose processed text
contains `between A and B` (first match, no vague phrase present) always
resolves to the later textual bound B, never A; in the LLM stage the
later-bound policy lives only in the prompt — the code accepts whatever
single valid time the external service returns (see the counterexample). -/
theorem C5_range_resolves_later (subject body : String) (sent_date now : ℚ)
    (a b : String)
    (hv : hasVague (regexText body) = false)
    (hb : searchWith matchBetweenAt (regexText body).data = some (a, b)) :
    extract_time_range (regexText body) =
      some (normalize_time a, normalize_time b) ∧
    _parse_with_regex subject body sent_date now =
      combine_date_and_time sent_date (normalize_time b) now := by
  have hex : extract_time_range (regexText body) =
      some (normalize_time a, normalize_time b) := by
    unfold extract_time_range
    rw [hb]
  refine ⟨hex, ?_⟩
  unfold _parse_with_regex
  rw [if_neg (by rw [hv]; simp), hex]

/-- C5 counterexample: for the body "between 1200 and 1400" (A = 1200
earlier than B = 1400), the LLM stage accepts a service reply of "1200" —
the code does not enforce the later-bound policy there, and the parser
resolves to A's timestamp (43200s = 12:00), not B's (50400s = 14:00). -/
theorem C5_counterexample :
    parse_eta_from_email_with_method (some (.ok "1200")) "RE: ETA Request"
        "between 1200 and 1400" 0 0 = (some 43200, some "llm") ∧
    combine_date_and_time 0 (normalize_time "1400") 0 = some 50400 ∧
    (43200 : ℚ) ≠ 50400 := by
  have hfl : (⌊(0:ℚ) / 86400⌋ : ℤ) = 0 := by norm_num
  have h12 : combine_date_and_time 0 "1200" 0 = some 43200 := by
    have hval : validate_time_str "1200" = true := by decide
    unfold combine_date_and_time
    rw [if_neg (by rw [hval]; simp)]
    simp only [hfl, show hourOf "1200" = 12 from rfl, show minuteOf "1200" = 0 from rfl]
    norm_num [MAX_ETA_FUTURE_HOURS, MAX_ETA_PAST_HOURS]
  have h14 : combine_date_and_time 0 "1400" 0 = some 50400 := by
    have hval : validate_time_str "1400" = true := by decide
    unfold combine_date_and_time
    rw [if_neg (by rw [hval]; simp)]
    simp only [hfl, show hourOf "1400" = 14 from rfl, show minuteOf "1400" = 0 from rfl]
    norm_num [MAX_ETA_FUTURE_HOURS, MAX_ETA_PAST_HOURS]
  refine ⟨?_, by rw [show normalize_time "1400" = "1400" from rfl]; exact h14,
    by norm_num⟩
  unfold parse_eta_from_email_with_method _parse_with_llm
  simp [h12, show validate_time_str "1200" = true from by decide]

/-- Witness for C5 at a concrete input: the regex stage on the same body
resolves to 14:00 (the later bound), never 12:00. -/
theorem C5_range_resolves_later_witness :
    extract_time_range (regexText "between 1200 and 1400") =
      some (normalize_time "1200", normalize_time "1400") ∧
    _parse_with_regex "RE: ETA Request" "between 1200 and 1400" 0 0 =
      combine_date_and_time 0 (normalize_time "1400") 0 :=
  C5_range_resolves_later "RE: ETA Request" "between 1200 and 1400" 0 0
    "1200" "1400" (by decide) (by decide)

/-! ### Execution gate (`execute_tier1_actions`, rules_engine.py lines 238-327) -/

/-- Python truthiness of an optional string column (`None` and `""` are
falsy). -/
def strTruthy : Option String → Bool
  | none => false
  | some s => !s.isEmpty

/-- Substring containment (Python `pat in s`). -/
def containsSub (s pat : String) : Bool :=
  (searchWith (fun l => dropLit pat.data l) s.data).isSome

/-- The tables touched by the execution gate, plus the module logger's
output (`log_lines`).  `execute_tier1_actions` itself never writes a log
line; only the embedded `_send_via_sendgrid` does. -/
structure ExecDB where
  agents : List AIAgent := []
  loads : List Load := []
  carriers : List Carrier := []
  escalations : List Escalation := []
  activities : List Activity := []
  email_logs : List EmailLog := []
  log_lines : List String := []
deriving DecidableEq, Repr

/-- The log line `_send_via_sendgrid` writes (email_service.py lines 74-76
and 88). -/
def sendgridLogLine (send_ok : Bool) (to_email subject : String) : String :=
  if send_ok then "[SendGrid] Sent to " ++ to_email ++ " | Subject: " ++ subject
  else "[SendGrid] Failed to send to " ++ to_email

/-- `_send_via_sendgrid` (email_service.py lines 36-95): the provider call
is an oracle; each branch logs one line and reports success. -/
def _send_via_sendgrid (send_ok : Bool) (to_email subject : String)
    (db : ExecDB) : ExecDB × Bool :=
  ({ db with log_lines := db.log_lines ++ [sendgridLogLine send_ok to_email subject] },
   send_ok)

/-- The `EmailLog` row built by `email_service.send_eta_request`
(lines 252-277); the rendered body is display-only and omitted. -/
def etaEmailLog (ok : Bool) (load : Load) (carrier : Carrier)
    (sent_by_agent_id : Option ℕ) : EmailLog :=
  { recipient := carrier.dispatcher_email.getD "",
    subject := "ETA Request - Load " ++ load.po_number,
    template_id := "eta_request",
    status := if ok then .sent else .failed,
    load_id := some load.id, carrier_id := some carrier.id,
    sent_by_agent_id := sent_by_agent_id }

/-- `email_service.send_eta_request` (lines 216-279): build the row, send,
set its status from the result, commit. -/
def send_eta_request (send_ok : Bool) (db : ExecDB) (load : Load)
    (carrier : Carrier) (sent_by_agent_id : Option ℕ) : ExecDB :=
  let sent := _send_via_sendgrid send_ok (carrier.dispatcher_email.getD "")
    ("ETA Request - Load " ++ load.po_number) db
  { sent.1 with email_logs := sent.1.email_logs ++
      [etaEmailLog sent.2 load carrier sent_by_agent_id] }

/-- An entry of the `executed` summary list returned by
`execute_tier1_actions`. -/
structure ExecutedAction where
  etype : String
  description : String
deriving DecidableEq, Repr

/-- `action.details.get("rule", default)` on the flattened details dict
(an empty `rule` models an absent key). -/
def ruleOr (a : RuleAction) (default : String) : String :=
  if a.rule = "" then default else a.rule

/-- The EMAIL_SENT activity row (rules_engine.py lines 272-279). -/
def emailActivity (agent_id : ℕ) (a : RuleAction) : Activity :=
  { agent_id := some agent_id, activity_type := .email_sent,
    load_id := a.load_id, rule := some (ruleOr a "tier1"),
    decision_code := some (ruleOr a "TIER1_ETA_REQUEST") }

/-- The escalation row created under FULL_AUTO (rules_engine.py lines
296-303): issue type RUNOUT_RISK iff "runout" occurs in the lowercased
description. -/
def tier1Escalation (agent_id : ℕ) (a : RuleAction) (pr : EscalationPriority) :
    Escalation :=
  { created_by_agent_id := some agent_id,
    issue_type := if containsSub (pyLower a.description) "runout" then
      .runout_risk else .delayed_shipment,
    description := a.description, priority := pr,
    site_id := a.site_id, load_id := a.load_id }

/-- The ESCALATION_CREATED activity row (rules_engine.py lines 308-314). -/
def escalationActivity (agent_id : ℕ) (a : RuleAction) : Activity :=
  { agent_id := some agent_id, activity_type := .escalation_created,
    rule := some (ruleOr a "tier1"),
    decision_code := some (ruleOr a "TIER1_ESCALATION") }

/-- One iteration of the action loop of `execute_tier1_actions`
(rules_engine.py lines 255-321).  The loop has no try/except, so an invalid
`EscalationPriority` string raises `ValueError` (modelled as `.error`);
unresolvable references and a missing dispatcher email are skipped
silently. -/
def executeAction (agent : AIAgent) (send_ok : Bool) (now : ℚ)
    (st : ExecDB × List ExecutedAction) (action : RuleAction) :
    Except String (ExecDB × List ExecutedAction) :=
  let db := st.1
  let executed := st.2
  if action.action_type = "send_eta_email" then
    if agent.execution_mode = .draft_only then
      .ok (db, executed ++
        [{ etype := "email_drafted",
           description := "[DRAFT] " ++ action.description }])
    else
      match action.load_id.bind (fun i => db.loads.find? (fun l => l.id == i)),
        action.carrier_id.bind (fun i => db.carriers.find? (fun c => c.id == i)) with
      | some load, some carrier =>
        if strTruthy carrier.dispatcher_email then
          let db := send_eta_request send_ok db load carrier (some agent.id)
          let db := { db with loads := db.loads.map (fun l : Load =>
            if l.id == load.id then { l with last_email_sent := some now } else l) }
          let db := { db with activities := db.activities ++
            [emailActivity agent.id action] }
          .ok (db, executed ++
            [{ etype := "email_sent",
               description := action.description }])
        else .ok (db, executed)
      | _, _ => .ok (db, executed)
  else if action.action_type = "create_escalation" then
    if agent.execution_mode = .draft_only ∨ agent.execution_mode = .auto_email then
      .ok (db, executed ++
        [{ etype := "escalation_drafted",
           description := "[DRAFT] " ++ action.description }])
    else
      match EscalationPriority.ofValue action.priority with
      | none => .error "ValueError: invalid EscalationPriority"
      | some pr =>
        let db := { db with escalations := db.escalations ++
          [tier1Escalation agent.id action pr] }
        let db := { db with activities := db.activities ++
          [escalationActivity agent.id action] }
        .ok (db, executed ++
          [{ etype := "escalation_created",
             description := action.description }])
  else .ok (db, executed)

/-- `execute_tier1_actions` (rules_engine.py lines 238-327). -/
def execute_tier1_actions (db : ExecDB) (agent_id : ℕ)
    (actions : List RuleAction) (send_ok : Bool) (now : ℚ) :
    Except String (ExecDB × List ExecutedAction) :=
  match db.agents.find? (fun a => a.id == agent_id) with
  | none => .ok (db, [])
  | some agent => actions.foldlM (executeAction agent send_ok now) (db, [])

/-- The `executed` entry a drafted action produces. -/
def draftRecord (a : RuleAction) : ExecutedAction :=
  { etype := (if a.action_type = "send_eta_email" then "email_drafted"
      else "escalation_drafted"),
    description := "[DRAFT] " ++ a.description }

theorem executeAction_draft (agent : AIAgent) (send_ok : Bool) (now : ℚ)
    (db : ExecDB) (ex : List ExecutedAction) (a : RuleAction)
    (hmode : agent.execution_mode = .draft_only)
    (hty : a.action_type = "send_eta_email" ∨ a.action_type = "create_escalation") :
    executeAction agent send_ok now (db, ex) a = .ok (db, ex ++ [draftRecord a]) := by
  rcases hty with hty | hty
  · simp [executeAction, hty, hmode, draftRecord]
  · have hne : a.action_type ≠ "send_eta_email" := by rw [hty]; decide
    simp [executeAction, hty, hmode, draftRecord, hne]

theorem foldlM_draft (agent : AIAgent) (send_ok : Bool) (now : ℚ) (db : ExecDB)
    (hmode : agent.execution_mode = .draft_only) :
    ∀ (actions : List RuleAction), (∀ a ∈ actions,
      a.action_type = "send_eta_email" ∨ a.action_type = "create_escalation") →
    ∀ ex : List ExecutedAction,
      actions.foldlM (executeAction agent send_ok now) (db, ex) =
        .ok (db, ex ++ actions.map draftRecord) := by
  intro actions
  induction actions with
  | nil =>
    intro _ ex
    simp only [List.foldlM_nil, List.map_nil, List.append_nil]
    rfl
  | cons a rest ih =>
    intro htypes ex
    rw [List.foldlM_cons,
      executeAction_draft agent send_ok now db ex a hmode
        (htypes a (List.mem_cons_self _ _))]
    simp only [bind, Except.bind]
    rw [ih (fun x hx => htypes x (List.mem_cons_of_mem _ hx)) (ex ++ [draftRecord a])]
    simp

/-- C2: the execution gate applies the agent's mode to every action.  Under
DRAFT_ONLY every action of a batch is recorded as a draft and the database
(including loads, escalations, activities, email logs and the logger) is
untouched.  Under AUTO_EMAIL (or any non-draft mode) an email action with
resolvable references sends the email (EmailLog row appended, last_email_sent
set, EMAIL_SENT activity logged), while escalation actions under DRAFT_ONLY
or AUTO_EMAIL are only recorded as drafts.  Under FULL_AUTO escalation
actions are persisted and an ESCALATION_CREATED activity is logged. -/
theorem C2_execution_modes (db : ExecDB) (agent_id : ℕ) (agent : AIAgent)
    (send_ok : Bool) (now : ℚ)
    (hfind : db.agents.find? (fun x => x.id == agent_id) = some agent) :
    (agent.execution_mode = .draft_only →
      ∀ actions : List RuleAction, (∀ a ∈ actions,
        a.action_type = "send_eta_email" ∨ a.action_type = "create_escalation") →
      execute_tier1_actions db agent_id actions send_ok now =
        .ok (db, actions.map draftRecord)) ∧
    (∀ a : RuleAction, a.action_type = "create_escalation" →
      agent.execution_mode = .draft_only ∨ agent.execution_mode = .auto_email →
      ∀ ex, executeAction agent send_ok now (db, ex) a =
        .ok (db, ex ++ [draftRecord a])) ∧
    (∀ (a : RuleAction) (load : Load) (carrier : Carrier),
      a.action_type = "send_eta_email" →
      agent.execution_mode ≠ .draft_only →
      a.load_id.bind (fun i => db.loads.find? (fun l => l.id == i)) = some load →
      a.carrier_id.bind (fun i => db.carriers.find? (fun c => c.id == i)) =
        some carrier →
      strTruthy carrier.dispatcher_email = true →
      ∀ ex, executeAction agent send_ok now (db, ex) a =
        .ok ({ db with
          log_lines := db.log_lines ++ [sendgridLogLine send_ok
            (carrier.dispatcher_email.getD "")
            ("ETA Request - Load " ++ load.po_number)],
          email_logs := db.email_logs ++
            [etaEmailLog send_ok load carrier (some agent.id)],
          loads := db.loads.map (fun l =>
            if l.id == load.id then { l with last_email_sent := some now } else l),
          activities := db.activities ++ [emailActivity agent.id a] },
          ex ++ [{ etype := "email_sent", description := a.description }])) ∧
    (∀ (a : RuleAction) (pr : EscalationPriority),
      a.action_type = "create_escalation" →
      agent.execution_mode = .full_auto →
      EscalationPriority.ofValue a.priority = some pr →
      ∀ ex, executeAction agent send_ok now (db, ex) a =
        .ok ({ db with
          escalations := db.escalations ++ [tier1Escalation agent.id a pr],
          activities := db.activities ++ [escalationActivity agent.id a] },
          ex ++ [{ etype := "escalation_created", description := a.description }])) := by
  refine ⟨?_, ?_, ?_, ?_⟩
  · intro hmode actions htypes
    unfold execute_tier1_actions
    rw [hfind]
    show (actions.foldlM (executeAction agent send_ok now) (db, [])) = _
    rw [foldlM_draft agent send_ok now db hmode actions htypes []]
    simp
  · intro a hty hmode ex
    have hne : a.action_type ≠ "send_eta_email" := by rw [hty]; decide
    simp [executeAction, hty, hne, hmode, draftRecord]
  · intro a load carrier hty hmode hload hcarrier hdisp ex
    simp only [executeAction, hty, if_pos rfl, if_neg hmode, hload, hcarrier,
      hdisp, if_true]
    rfl
  · intro a pr hty hmode hpr ex
    have hne : a.action_type ≠ "send_eta_email" := by rw [hty]; decide
    have hnor : ¬ (agent.execution_mode = .draft_only ∨
        agent.execution_mode = .auto_email) := by
      rw [hmode]; rintro (h | h) <;> exact AgentExecutionMode.noConfusion h
    simp only [executeAction, hne, if_neg hne, hty, if_pos rfl, if_neg hnor, hpr]
    rfl

/-- Concrete execution-gate scenario: one load/carrier pair that resolves,
one carrier id (9) that does not exist. -/
def loadC2 : Load :=
  { id := 5, po_number := "PO-2024-005", carrier_id := 3,
    destination_site_id := 1, status := .in_transit }

def carrierC2 : Carrier :=
  { id := 3, carrier_name := "Acme Fuel",
    dispatcher_email := some "dispatch@acme.test" }

def dbC2 : ExecDB :=
  { agents := [{ id := 1, execution_mode := .draft_only },
      { id := 2, execution_mode := .auto_email },
      { id := 3, execution_mode := .full_auto }],
    loads := [loadC2], carriers := [carrierC2] }

def emailActionC2 : RuleAction :=
  { action_type := "send_eta_email",
    site_id := some 1, load_id := some 5, carrier_id := some 3,
    description := "Requesting ETA for PO-2024-005", rule := "stale_eta" }

def escActionC2 : RuleAction :=
  { action_type := "create_escalation",
    priority := "critical", site_id := some 1,
    description := "S1 has 10h to runout with NO active loads.",
    rule := "critical_no_loads" }

/-- Witness for C2 at concrete inputs: a DRAFT_ONLY batch drafts both
actions; an AUTO_EMAIL agent drafts an escalation; a FULL_AUTO agent
executes an email and an escalation. -/
theorem C2_execution_modes_witness :
    execute_tier1_actions dbC2 1 [emailActionC2, escActionC2] true 0 =
      .ok (dbC2, [emailActionC2, escActionC2].map draftRecord) ∧
    executeAction { id := 2, execution_mode := .auto_email } true 0 (dbC2, [])
      escActionC2 = .ok (dbC2, [draftRecord escActionC2]) ∧
    executeAction { id := 3, execution_mode := .full_auto } true 0 (dbC2, [])
      emailActionC2 = .ok ({ dbC2 with
        log_lines := dbC2.log_lines ++ [sendgridLogLine true
          (carrierC2.dispatcher_email.getD "")
          ("ETA Request - Load " ++ loadC2.po_number)],
        email_logs := dbC2.email_logs ++ [etaEmailLog true loadC2 carrierC2 (some 3)],
        loads := dbC2.loads.map (fun l =>
          if l.id == loadC2.id then { l with last_email_sent := some 0 } else l),
        activities := dbC2.activities ++ [emailActivity 3 emailActionC2] },
        [{ etype := "email_sent", description := emailActionC2.description }]) ∧
    executeAction { id := 3, execution_mode := .full_auto } true 0 (dbC2, [])
      escActionC2 = .ok ({ dbC2 with
        escalations := dbC2.escalations ++
          [tier1Escalation 3 escActionC2 .critical],
        activities := dbC2.activities ++ [escalationActivity 3 escActionC2] },
        [{ etype := "escalation_created", description := escActionC2.description }]) := by
  obtain ⟨h1, h2, h3, h4⟩ := C2_execution_modes dbC2 1
    { id := 1, execution_mode := .draft_only } true 0 rfl
  obtain ⟨-, h2', -, -⟩ := C2_execution_modes dbC2 2
    { id := 2, execution_mode := .auto_email } true 0 rfl
  obtain ⟨-, -, h3', h4'⟩ := C2_execution_modes dbC2 3
    { id := 3, execution_mode := .full_auto } true 0 rfl
  refine ⟨h1 rfl [emailActionC2, escActionC2] (by decide), ?_, ?_, ?_⟩
  · exact h2' escActionC2 rfl (Or.inr rfl) []
  · exact h3' emailActionC2 loadC2 carrierC2 rfl (by decide) rfl rfl rfl []
  · exact h4' escActionC2 .critical rfl rfl rfl []

/-- C8 (amended): an email action whose load or carrier reference does not
resolve, or whose carrier has no dispatcher email, is skipped without
crashing and WITHOUT writing any log line (the database, including
`log_lines`, is returned unchanged), and the remaining actions of the batch
are still processed. -/
theorem C8_continue_on_error (db : ExecDB) (agent : AIAgent) (send_ok : Bool)
    (now : ℚ) (a : RuleAction)
    (hty : a.action_type = "send_eta_email")
    (hmode : agent.execution_mode ≠ .draft_only)
    (hbad : a.load_id.bind (fun i => db.loads.find? (fun l => l.id == i)) = none ∨
      a.carrier_id.bind (fun i => db.carriers.find? (fun c => c.id == i)) = none ∨
      ∃ c, a.carrier_id.bind (fun i => db.carriers.find? (fun c => c.id == i)) =
        some c ∧ strTruthy c.dispatcher_email = false) :
    (∀ ex, executeAction agent send_ok now (db, ex) a = .ok (db, ex)) ∧
    (∀ (rest : List RuleAction) (ex : List ExecutedAction),
      (a :: rest).foldlM (executeAction agent send_ok now) (db, ex) =
        rest.foldlM (executeAction agent send_ok now) (db, ex)) := by
  have hskip : ∀ ex, executeAction agent send_ok now (db, ex) a = .ok (db, ex) := by
    intro ex
    show (if a.action_type = "send_eta_email" then _ else _) = _
    rw [if_pos hty, if_neg hmode]
    rcases hbad with hb | hb | ⟨c, hc, hdisp⟩
    · rw [hb]
    · rw [hb]
      cases a.load_id.bind (fun i => db.loads.find? (fun l => l.id == i)) <;> rfl
    · rw [hc]
      cases hl : a.load_id.bind (fun i => db.loads.find? (fun l => l.id == i)) with
      | none => rfl
      | some load => simp [hdisp]
  refine ⟨hskip, ?_⟩
  intro rest ex
  rw [List.foldlM_cons, hskip ex]
  simp only [bind, Except.bind]

/-- An email action whose carrier id resolves to nothing. -/
def badEmailActionC8 : RuleAction :=
  { action_type := "send_eta_email",
    site_id := some 1, load_id := some 5, carrier_id := some 9,
    description := "Requesting ETA for PO-2024-005", rule := "stale_eta" }

def escActionC8 : RuleAction :=
  { action_type := "create_escalation",
    priority := "critical", site_id := some 1,
    description := "S1 Runout risk with no active loads.",
    rule := "critical_no_loads" }

def dbC8 : ExecDB :=
  { agents := [{ id := 1, execution_mode := .full_auto }],
    loads := [loadC2], carriers := [carrierC2] }

/-- C8 counterexample: the skip of a failing action is silent.  With a batch
of one unresolvable email action (carrier id 9 does not exist) and one good
escalation action under FULL_AUTO, the run completes, processes the second
action, and the log is left EMPTY — no failure is logged, contradicting the
claim's "logs the failure". -/
theorem C8_counterexample :
    execute_tier1_actions dbC8 1 [badEmailActionC8, escActionC8] true 0 =
      .ok ({ dbC8 with
        escalations := [tier1Escalation 1 escActionC8 .critical],
        activities := [escalationActivity 1 escActionC8] },
        [{ etype := "escalation_created",
           description := escActionC8.description }]) ∧
    (execute_tier1_actions dbC8 1 [badEmailActionC8, escActionC8] true 0).map
      (fun r => r.1.log_lines) = .ok [] := ⟨rfl, rfl⟩

/-- Witness for C8 at a concrete input. -/
theorem C8_continue_on_error_witness :
    (∀ ex, executeAction { id := 1, execution_mode := .full_auto } true 0
      (dbC8, ex) badEmailActionC8 = .ok (dbC8, ex)) ∧
    (∀ (rest : List RuleAction) (ex : List ExecutedAction),
      (badEmailActionC8 :: rest).foldlM
        (executeAction { id := 1, execution_mode := .full_auto } true 0)
        (dbC8, ex) =
      rest.foldlM (executeAction { id := 1, execution_mode := .full_auto } true 0)
        (dbC8, ex)) :=
  C8_continue_on_error dbC8 { id := 1, execution_mode := .full_auto } true 0
    badEmailActionC8 rfl (by decide) (Or.inr (Or.inl rfl))

/-! ### C6: staleness monitor vs. the `Escalation` model -/

/-- Column names of the declared `Escalation` model (models.py lines
286-307). -/
def escalationModelColumns : List String :=
  ["id", "created_by_agent_id", "load_id", "site_id", "priority", "issue_type",
   "description", "status", "assigned_to", "resolution_notes", "created_at",
   "resolved_at", "updated_at"]

/-- Attributes referenced by the inventory-staleness dedup filter
(staleness_monitor.py lines 94-98). -/
def stalenessInventoryFilterAttrs : List String :=
  ["site_id", "escalation_type", "status"]

/-- Attributes referenced by the ETA-staleness dedup filter
(staleness_monitor.py lines 146-150). -/
def stalenessEtaFilterAttrs : List String :=
  ["load_id", "escalation_type", "status"]

/-- Keyword arguments of both `Escalation(...)` constructor calls in the
staleness monitor (staleness_monitor.py lines 119-137 and 174-193). -/
def stalenessEscalationKwargs : List String :=
  ["escalation_type", "priority", "site_id", "load_id", "description",
   "recommended_action", "status"]

/-- C6 (code bug): both dedup filters and both constructor calls of the
staleness monitor reference an `escalation_type` column — and the
constructors a `recommended_action` column — that the `Escalation` model
does not declare, and neither constructor call supplies the non-nullable
`issue_type` that every other creator in the repository sets.  Accessing
`Escalation.escalation_type` raises `AttributeError` before any staleness
escalation can be created, let alone updated in place on a second run. -/
theorem C6_staleness_columns_missing :
    "escalation_type" ∈ stalenessInventoryFilterAttrs ∧
    "escalation_type" ∈ stalenessEtaFilterAttrs ∧
    "escalation_type" ∈ stalenessEscalationKwargs ∧
    "recommended_action" ∈ stalenessEscalationKwargs ∧
    "escalation_type" ∉ escalationModelColumns ∧
    "recommended_action" ∉ escalationModelColumns ∧
    "issue_type" ∈ escalationModelColumns ∧
    "issue_type" ∉ stalenessEscalationKwargs := by decide

/-! ### Knowledge-graph event handlers (`services/knowledge_graph.py`)

Each handler opens a session, mutates rows, commits, and wraps everything in
`try/except Exception: db.rollback()` with a `finally: db.close()`.  A
session is modelled as (committed, pending) database copies; `db.commit()`
copies pending over committed.  Failures are injected at commit points: an
exception anywhere between two commits is, after the handler's rollback,
observationally equivalent to one injected at the next commit, so
`failAt = some k` makes the k-th commit raise. -/

/-- The tables the knowledge-graph handlers touch. -/
structure KGDB where
  loads : List Load := []
  escalations : List Escalation := []
  carrier_stats : List CarrierStats := []
  site_stats : List SiteStats := []
deriving DecidableEq, Repr

def getCarrierStats (db : KGDB) (cid : ℕ) : Option CarrierStats :=
  db.carrier_stats.find? (fun cs => cs.carrier_id == cid)

def getSiteStats (db : KGDB) (sid : ℕ) : Option SiteStats :=
  db.site_stats.find? (fun ss => ss.site_id == sid)

/-- Write back a (mutated or new) carrier-stats row. -/
def setCarrierStats (db : KGDB) (cs : CarrierStats) : KGDB :=
  if db.carrier_stats.any (fun x => x.carrier_id == cs.carrier_id) then
    { db with carrier_stats := db.carrier_stats.map (fun x =>
        if x.carrier_id == cs.carrier_id then cs else x) }
  else { db with carrier_stats := db.carrier_stats ++ [cs] }

/-- Write back a (mutated or new) site-stats row. -/
def setSiteStats (db : KGDB) (ss : SiteStats) : KGDB :=
  if db.site_stats.any (fun x => x.site_id == ss.site_id) then
    { db with site_stats := db.site_stats.map (fun x =>
        if x.site_id == ss.site_id then ss else x) }
  else { db with site_stats := db.site_stats ++ [ss] }

/-- A SQLAlchemy session: committed and pending database states, and the
number of commits executed so far (used for failure injection). -/
structure Session where
  committed : KGDB
  pending : KGDB
  ncommits : ℕ := 0
deriving DecidableEq, Repr

def Session.start (db : KGDB) : Session :=
  { committed := db, pending := db, ncommits := 0 }

/-- `db.commit()` with failure injection. -/
def commitAt (failAt : Option ℕ) (s : Session) : Except Session Session :=
  if failAt = some s.ncommits then .error s
  else .ok { committed := s.pending, pending := s.pending,
             ncommits := s.ncommits + 1 }

/-- The handler's observable outcome: on success the committed state; on a
caught exception, `db.rollback()` discards pending and the committed state
stands — either way the handler returns normally. -/
def Session.finish : Except Session Session → KGDB
  | .ok s => s.committed
  | .error s => s.committed

/-- `_ensure_carrier_stats` (knowledge_graph.py lines 27-35): get the row or
create it and COMMIT mid-handler. -/
def _ensure_carrier_stats (failAt : Option ℕ) (s : Session) (carrier_id : ℕ) :
    Except Session (Session × CarrierStats) :=
  match getCarrierStats s.pending carrier_id with
  | some stats => .ok (s, stats)
  | none =>
    let stats : CarrierStats := { carrier_id := carrier_id }
    match commitAt failAt { s with pending := setCarrierStats s.pending stats } with
    | .error e => .error e
    | .ok s => .ok (s, stats)

/-- `_ensure_site_stats` (knowledge_graph.py lines 38-46). -/
def _ensure_site_stats (failAt : Option ℕ) (s : Session) (site_id : ℕ) :
    Except Session (Session × SiteStats) :=
  match getSiteStats s.pending site_id with
  | some stats => .ok (s, stats)
  | none =>
    let stats : SiteStats := { site_id := site_id }
    match commitAt failAt { s with pending := setSiteStats s.pending stats } with
    | .error e => .error e
    | .ok s => .ok (s, stats)

/-- Python's `round(q, 1)`. -/
def round1 (q : ℚ) : ℚ := (roundHalfEven (q * 10) : ℚ) / 10

/-- Python `xs[-n:]`. -/
def lastN {α : Type} (n : ℕ) (l : List α) : List α := l.drop (l.length - n)

/-- `.value` of an `EscalationPriority` member. -/
def priorityValue : EscalationPriority → String
  | .low => "low"
  | .medium => "medium"
  | .high => "high"
  | .critical => "critical"

/-- `on_load_delivered` (knowledge_graph.py lines 66-134): updates carrier
delivery stats, the reliability score, and the destination site's event
buffer; returns the committed database (the `except` clause catches any
failure, rolls back, and returns normally). -/
def on_load_delivered (db : KGDB) (load_id : ℕ) (actual : ℚ)
    (failAt : Option ℕ) : KGDB :=
  match db.loads.find? (fun l => l.id == load_id) with
  | none => db
  | some load =>
    Session.finish (do
      let s := Session.start db
      let (s, cs) ← _ensure_carrier_stats failAt s load.carrier_id
      let cs := { cs with total_deliveries := cs.total_deliveries + 1 }
      let (was_late, delay_hours, cs) :
          Bool × ℚ × CarrierStats :=
        match load.current_eta with
        | some eta =>
          if eta < actual then
            let delay := (actual - eta) / 3600
            let cs := { cs with late_deliveries := cs.late_deliveries + 1 }
            let newavg :=
              if (0 : ℚ) < cs.avg_delay_hours then
                (cs.avg_delay_hours * ((cs.late_deliveries - 1 : ℕ) : ℚ) + delay) / (cs.late_deliveries : ℚ)
              else delay
            let cs := { cs with avg_delay_hours := newavg }
            (true, delay,
              { cs with worst_delay_hours := max cs.worst_delay_hours delay })
          else
            (false, 0, { cs with on_time_deliveries := cs.on_time_deliveries + 1 })
        | none =>
          (false, 0, { cs with on_time_deliveries := cs.on_time_deliveries + 1 })
      let recent := cs.recent_deliveries ++
        [{ on_time := !was_late, delay_hours := round1 delay_hours,
           date := actual, load_id := load_id, po_number := load.po_number }]
      let cs := { cs with recent_deliveries := lastN 10 recent }
      let cs := { cs with reliability_score := _compute_reliability_score cs }
      let cs := { cs with flagged_unreliable := flagUnreliable cs.reliability_score }
      let s := { s with pending := setCarrierStats s.pending cs }
      let (s, ss) ← _ensure_site_stats failAt s load.destination_site_id
      let ss := { ss with
        total_deliveries_received := ss.total_deliveries_received + 1 }
      let lateness := if was_late then " delivered late" else " delivered on time"
      let details := "PO " ++ load.po_number ++ lateness
      let events := ss.recent_events ++
        [{ etype := "delivery", date := actual, details := details, carrier := some load.carrier_id }]
      let ss := { ss with recent_events := lastN 10 events }
      let s := { s with pending := setSiteStats s.pending ss }
      commitAt failAt s)

/-- `on_escalation_resolved` (knowledge_graph.py lines 137-175).  Python's
`not esc.site_id` treats a NULL site reference as "nothing to do". -/
def on_escalation_resolved (db : KGDB) (escalation_id : ℕ)
    (was_false_alarm : Bool) (now : ℚ) (failAt : Option ℕ) : KGDB :=
  match db.escalations.find? (fun e => e.id == escalation_id) with
  | none => db
  | some esc =>
    match esc.site_id with
    | none => db
    | some site_id =>
      Session.finish (do
        let s := Session.start db
        let (s, ss) ← _ensure_site_stats failAt s site_id
        let ss := { ss with total_escalations := ss.total_escalations + 1 }
        let ss := if was_false_alarm then
            { ss with false_alarm_count := ss.false_alarm_count + 1 }
          else ss
        let far :=
          if 0 < ss.total_escalations then
            round3 ((ss.false_alarm_count : ℚ) / ss.total_escalations)
          else (0 : ℚ)
        let ss := { ss with false_alarm_rate := far }
        let rs :=
          if 0 < ss.total_escalations then
            round3 (min 1 (((ss.total_escalations : ℚ) - ss.false_alarm_count) / ((max ss.total_deliveries_received 1 : ℕ) : ℚ)))
          else ss.risk_score
        let ss := { ss with risk_score := rs }
        let lbl := if was_false_alarm then "False alarm: " else "Real issue: "
        let details : String := lbl ++ ⟨esc.description.data.take 80⟩
        let events := ss.recent_events ++
          [{ etype := "escalation_resolved", date := now, details := details, priority := some (priorityValue esc.priority) }]
        let ss := { ss with recent_events := lastN 10 events }
        let s := { s with pending := setSiteStats s.pending ss }
        commitAt failAt s)

/-- `on_eta_email_response` (knowledge_graph.py lines 178-205). -/
def on_eta_email_response (db : KGDB) (carrier_id : ℕ)
    (request_sent_at : Option ℚ) (now : ℚ) (failAt : Option ℕ) : KGDB :=
  Session.finish (do
    let s := Session.start db
    let (s, cs) ← _ensure_carrier_stats failAt s carrier_id
    let cs := { cs with eta_responses_received := cs.eta_responses_received + 1 }
    let cs :=
      match request_sent_at with
      | some t =>
        let response_hours := (now - t) / 3600
        match cs.avg_response_time_hours with
        | some avg =>
          let n := cs.eta_responses_received
          let newavg := (avg * ((n - 1 : ℕ) : ℚ) + response_hours) / (n : ℚ)
          { cs with avg_response_time_hours := some newavg }
        | none => { cs with avg_response_time_hours := some response_hours }
      | none => cs
    let cs := { cs with reliability_score := _compute_reliability_score cs }
    let s := { s with pending := setCarrierStats s.pending cs }
    commitAt failAt s)

/-- `on_eta_request_sent` (knowledge_graph.py lines 208-219). -/
def on_eta_request_sent (db : KGDB) (carrier_id : ℕ) (failAt : Option ℕ) : KGDB :=
  Session.finish (do
    let s := Session.start db
    let (s, cs) ← _ensure_carrier_stats failAt s carrier_id
    let cs := { cs with total_eta_requests := cs.total_eta_requests + 1 }
    let s := { s with pending := setCarrierStats s.pending cs }
    commitAt failAt s)

/-- The `important_keywords` table of `on_unparseable_email`
(knowledge_graph.py lines 232-244), in insertion order; first match wins. -/
def important_keywords :
    List (String × IssueType × EscalationPriority × String) :=
  [("out of stock", .terminal_out_of_stock, .critical,
    "Terminal out of stock reported"),
   ("ran out", .terminal_out_of_stock, .critical,
    "Supplier reports fuel shortage"),
   ("shortage", .terminal_out_of_stock, .high,
    "Fuel shortage reported by carrier"),
   ("cannot deliver", .driver_issue, .high, "Carrier cannot complete delivery"),
   ("can't deliver", .driver_issue, .high, "Carrier cannot complete delivery"),
   ("truck broke", .driver_issue, .high, "Carrier reports vehicle breakdown"),
   ("breakdown", .driver_issue, .medium, "Carrier reports breakdown"),
   ("cancelled", .other, .high, "Carrier indicates load cancellation"),
   ("canceled", .other, .high, "Carrier indicates load cancellation"),
   ("refuse", .other, .high, "Carrier refusal detected"),
   ("accident", .driver_issue, .critical, "Accident reported by carrier")]

/-- `on_unparseable_email` (knowledge_graph.py lines 222-283): scan the
body for the keyword table, auto-create an escalation on a match; the
boolean is the returned "escalated" field (the error dict also carries
`escalated: False`). -/
def on_unparseable_email (db : KGDB) (from_email subject body : String)
    (load_id : Option ℕ) (failAt : Option ℕ) : KGDB × Bool :=
  match important_keywords.find? (fun kv => containsSub (pyLower body) kv.1) with
  | none => (db, false)
  | some kv =>
    let run : Except Session Session := (do
      let s := Session.start db
      let site_id := match load_id.bind (fun i =>
          db.loads.find? (fun l => l.id == i)) with
        | some load => some load.destination_site_id
        | none => none
      let descr : String :=
        kv.2.2.2 ++ ". Email from " ++ from_email ++ ": \"" ++ subject ++ "\" — " ++ ⟨body.data.take 200⟩
      let esc : Escalation :=
        { issue_type := kv.2.1, description := descr, priority := kv.2.2.1, site_id := site_id, load_id := load_id }
      let s := { s with pending := { s.pending with
        escalations := s.pending.escalations ++ [esc] } }
      commitAt failAt s)
    match run with
    | .ok s => (s.committed, true)
    | .error s => (s.committed, false)

/-! ### C10: atomicity of the knowledge-graph handlers -/

lemma except_bind_ok {e a b : Type} (x : a) (f : a → Except e b) :
    (Except.ok x >>= f) = f x := rfl

lemma except_bind_error {e a b : Type} (x : e) (f : a → Except e b) :
    ((Except.error x : Except e a) >>= f) = Except.error x := rfl

lemma setCarrierStats_site_stats (db : KGDB) (cs : CarrierStats) :
    (setCarrierStats db cs).site_stats = db.site_stats := by
  unfold setCarrierStats
  split <;> rfl

lemma getSiteStats_setCarrierStats (db : KGDB) (cs : CarrierStats) (sid : ℕ) :
    getSiteStats (setCarrierStats db cs) sid = getSiteStats db sid := by
  unfold getSiteStats
  rw [setCarrierStats_site_stats]

lemma find?_setList (l : List CarrierStats) (cs : CarrierStats) :
    (if l.any (fun x => x.carrier_id == cs.carrier_id)
        then l.map (fun x => if x.carrier_id == cs.carrier_id then cs else x)
        else l ++ [cs]).find? (fun x => x.carrier_id == cs.carrier_id)
      = some cs := by
  induction l with
  | nil => simp
  | cons hd tl ih =>
    by_cases h : hd.carrier_id = cs.carrier_id
    · simp [h]
    · by_cases h2 : tl.any (fun x => x.carrier_id == cs.carrier_id)
      · simp [h2] at ih
        simp [h, h2, ih]
      · simp [h2] at ih
        simp [h, h2, ih]

lemma getCarrierStats_set_self (db : KGDB) (cs : CarrierStats) :
    getCarrierStats (setCarrierStats db cs) cs.carrier_id = some cs := by
  have hfind := find?_setList db.carrier_stats cs
  unfold getCarrierStats setCarrierStats
  by_cases h : db.carrier_stats.any (fun x => x.carrier_id == cs.carrier_id)
  · simp only [h, if_true] at hfind ⊢
    exact hfind
  · simp only [h, if_false, Bool.false_eq_true] at hfind ⊢
    exact hfind

/-- C10 (amended): every knowledge-graph handler traps exceptions, rolls the
transaction back and returns normally, and a failure arriving before the
first commit leaves the stored statistics unchanged; a completed run applies
its update (shown for `on_eta_request_sent`: the request counter of the
carrier is incremented, starting from 0 for a fresh row).  The handlers are
NOT atomic, however: the get-or-create helpers commit mid-handler, so a
later failure persists a partial update (see `C10_counterexample`). -/
theorem C10_handler_atomicity :
    (∀ db lid actual, on_load_delivered db lid actual (some 0) = db) ∧
    (∀ db eid b now, on_escalation_resolved db eid b now (some 0) = db) ∧
    (∀ db cid r now, on_eta_email_response db cid r now (some 0) = db) ∧
    (∀ db cid, on_eta_request_sent db cid (some 0) = db) ∧
    (∀ db f su bo lid, (on_unparseable_email db f su bo lid (some 0)).1 = db) ∧
    (∀ db cid,
      (getCarrierStats (on_eta_request_sent db cid none) cid).map
          (fun cs => cs.total_eta_requests) =
        some (((getCarrierStats db cid).map
          (fun cs => cs.total_eta_requests)).getD 0 + 1)) := by
  refine ⟨?_, ?_, ?_, ?_, ?_, ?_⟩
  · intro db lid actual
    unfold on_load_delivered
    cases h1 : db.loads.find? (fun l => l.id == lid) with
    | none => rfl
    | some load =>
      cases h2 : getCarrierStats db load.carrier_id with
      | none =>
        simp [Session.finish, Session.start, _ensure_carrier_stats,
          _ensure_site_stats, commitAt, h2, except_bind_ok, except_bind_error]
      | some cs =>
        cases h3 : getSiteStats db load.destination_site_id with
        | none =>
          simp [Session.finish, Session.start, _ensure_carrier_stats,
            _ensure_site_stats, commitAt, h2, h3, getSiteStats_setCarrierStats,
            except_bind_ok, except_bind_error]
        | some ss =>
          simp [Session.finish, Session.start, _ensure_carrier_stats,
            _ensure_site_stats, commitAt, h2, h3, getSiteStats_setCarrierStats,
            except_bind_ok, except_bind_error]
  · intro db eid b now
    unfold on_escalation_resolved
    cases h1 : db.escalations.find? (fun e => e.id == eid) with
    | none => rfl
    | some esc =>
      cases hs : esc.site_id with
      | none => simp [hs]
      | some sid =>
        cases h2 : getSiteStats db sid with
        | none =>
          simp [hs, Session.finish, Session.start, _ensure_site_stats, commitAt,
            h2, except_bind_ok, except_bind_error]
        | some ss =>
          simp [hs, Session.finish, Session.start, _ensure_site_stats, commitAt,
            h2, except_bind_ok, except_bind_error]
  · intro db cid r now
    unfold on_eta_email_response
    cases h2 : getCarrierStats db cid with
    | none =>
      simp [Session.finish, Session.start, _ensure_carrier_stats, commitAt,
        h2, except_bind_ok, except_bind_error]
    | some cs =>
      simp [Session.finish, Session.start, _ensure_carrier_stats, commitAt,
        h2, except_bind_ok, except_bind_error]
  · intro db cid
    unfold on_eta_request_sent
    cases h2 : getCarrierStats db cid with
    | none =>
      simp [Session.finish, Session.start, _ensure_carrier_stats, commitAt,
        h2, except_bind_ok, except_bind_error]
    | some cs =>
      simp [Session.finish, Session.start, _ensure_carrier_stats, commitAt,
        h2, except_bind_ok, except_bind_error]
  · intro db f su bo lid
    unfold on_unparseable_email
    cases hk : important_keywords.find? (fun kv => containsSub (pyLower bo) kv.1) with
    | none => rfl
    | some kv =>
      simp [Session.start, commitAt, except_bind_ok, except_bind_error]
  · intro db cid
    unfold on_eta_request_sent
    cases h2 : getCarrierStats db cid with
    | none =>
      have hset := getCarrierStats_set_self
        (setCarrierStats db { carrier_id := cid })
        { carrier_id := cid, total_eta_requests := 1 }
      simp [Session.finish, Session.start, _ensure_carrier_stats, commitAt,
        h2, except_bind_ok, except_bind_error]
      exact ⟨_, by simpa using hset, rfl⟩
    | some cs =>
      have hc : cs.carrier_id = cid := by
        have := List.find?_some h2
        simpa using this
      have hset := getCarrierStats_set_self db
        { cs with total_eta_requests := cs.total_eta_requests + 1 }
      simp [Session.finish, Session.start, _ensure_carrier_stats, commitAt,
        h2, except_bind_ok, except_bind_error]
      rw [← hc]
      exact ⟨_, by simpa using hset, rfl⟩

/-- A database with an existing reliability row for carrier 2 (three on-time
deliveries) and no statistics row yet for site 7. -/
def kgdbX : KGDB :=
  { loads := [{ id := 5, po_number := "PO-2024-005", carrier_id := 2,
                destination_site_id := 7, status := .in_transit }],
    escalations := [],
    carrier_stats := [{ carrier_id := 2, total_deliveries := 3,
                        on_time_deliveries := 3 }],
    site_stats := [] }

/-- C10 counterexample: `on_load_delivered` is not atomic on error.  Site 7
has no statistics row, so `_ensure_site_stats` creates one and COMMITS — at
that point the mutated carrier row is flushed too.  When the final commit
then raises (`failAt = some 1`), the handler rolls back and returns
normally, but the stored carrier row now shows 4 total deliveries instead
of 3, while the site event of the same delivery was lost (the fresh site
row is left committed with no events); the claimed "stored statistics are
unchanged" is false. -/
theorem C10_counterexample :
    (getCarrierStats kgdbX 2).map (fun cs => cs.total_deliveries) = some 3 ∧
    (getCarrierStats (on_load_delivered kgdbX 5 1000 (some 1)) 2).map
        (fun cs => cs.total_deliveries) = some 4 ∧
    (getSiteStats (on_load_delivered kgdbX 5 1000 (some 1)) 7).map
        (fun ss => (ss.total_deliveries_received, ss.recent_events.length)) =
      some (0, 0) ∧
    on_load_delivered kgdbX 5 1000 (some 1) ≠ kgdbX := by
  have h1 : (getCarrierStats kgdbX 2).map (fun cs => cs.total_deliveries)
      = some 3 := rfl
  have h2 : (getCarrierStats (on_load_delivered kgdbX 5 1000 (some 1)) 2).map
      (fun cs => cs.total_deliveries) = some 4 := rfl
  refine ⟨h1, h2, rfl, fun he => ?_⟩
  rw [he, h1] at h2
  exact absurd h2 (by decide)

end Fuels
